import Mathlib

/-!
# fizzle-example: call-sequence model of `blendBlink` and `cubeBreak`

Both programs are glue code around an external rendering engine (fizzle) and a
windowing library (GLFW).  What the programs themselves decide is *which*
external calls are made, with which arguments, in which order, and when the
process stops.  The embedding below therefore translates every Go function of
the two programs into a Lean function that returns

* the list of external calls it performs (`Out.trace`),
* the calls it has deferred with `defer` (`Out.defers`),
* and either its result or the way the process aborted (`Out.res`).

Everything the outside world decides (does a file load, which monitors exist,
which keys are pressed in which frame, what the engine reports as light count)
is an explicit input (`Env`, `Frame`).

`float32` values are never computed with; where the source writes a decimal
literal it is kept as the rational number with that decimal expansion.
-/

namespace Fizzle

/-! ## Values handed to the engine -/

/-- Components of an `mgl.Vec3` literal. -/
structure Vec3 where
  x : ℚ
  y : ℚ
  z : ℚ
  deriving DecidableEq, Repr

/-- Components of an `mgl.Vec4` literal. -/
structure Vec4 where
  x : ℚ
  y : ℚ
  z : ℚ
  w : ℚ
  deriving DecidableEq, Repr

/-- A 4x4 matrix, kept symbolic: the program only passes matrices on. -/
inductive Mat4
  /-- Result of `mgl.Perspective(mgl.DegToRad(fovy), width/height, near, far)`. -/
  | perspective (fovyDeg : ℚ) (width height : Int) (near far : ℚ)
  /-- Result of `camera.GetViewMatrix()`. -/
  | cameraView
  /-- Matrix computed inside the engine (a shadow map's projection or view). -/
  | engine (tag : Nat)
  deriving DecidableEq, Repr

/-- Identity of a `*fizzle.RenderShader` returned by a successful load. -/
structure Shader where
  id : Nat
  deriving DecidableEq, Repr

/-- Identity of a texture returned by `TextureManager.LoadTexture`. -/
structure Texture where
  id : Nat
  deriving DecidableEq, Repr

/-- Identity of a `*glfw.Monitor`. -/
structure Monitor where
  id : Nat
  deriving DecidableEq, Repr

/-- Geometry requested from the engine's primitive constructors. -/
inductive Mesh
  /-- Corners passed to `fizzle.CreateCube`. -/
  | cube (xmin ymin zmin xmax ymax zmax : ℚ)
  /-- Corners passed to `fizzle.CreatePlaneXY`. -/
  | planeXY (x0 y0 x1 y1 : ℚ)
  deriving DecidableEq, Repr

/-- The fields of a `*fizzle.Renderable` that the programs read or assign.
`ptr` is the identity of the pointer; a field the program has not assigned is
`none` (the engine's default). -/
structure Renderable where
  ptr : Nat
  shaderName : String
  mesh : Mesh
  shader : Option Shader := none
  diffuseColor : Option Vec4 := none
  specularColor : Option Vec4 := none
  shininess : Option ℚ := none
  tex0 : Option Texture := none
  tex1 : Option Texture := none
  scale : Option Vec3 := none
  location : Option Vec3 := none
  deriving DecidableEq, Repr

/-- The `ShadowMap` of a light: the two matrices the shadow pass reads. -/
structure ShadowMap where
  projection : Mat4
  view : Mat4
  deriving DecidableEq, Repr

/-- The fields of a `*forward.Light` that the programs read or assign. -/
structure Light where
  ptr : Nat
  position : Option Vec3 := none
  direction : Option Vec3 := none
  diffuseColor : Option Vec4 := none
  diffuseIntensity : Option ℚ := none
  specularIntensity : Option ℚ := none
  ambientIntensity : Option ℚ := none
  attenuation : Option ℚ := none
  shadowMap : Option ShadowMap := none
  deriving DecidableEq, Repr

/-- GLFW window hints set by `initGraphics`. -/
inductive Hint
  | samples
  | contextVersionMajor
  | contextVersionMinor
  | openGLForwardCompatible
  | openGLProfile
  deriving DecidableEq, Repr

/-- Values given to window hints. -/
inductive HintValue
  | int (n : Int)
  | glfwTrue
  | openGLCoreProfile
  deriving DecidableEq, Repr

/-- Capabilities passed to `gfx.Enable`. -/
inductive Capability
  | cullFace
  | depthTest
  | programPointSize
  | texture2D
  | blend
  deriving DecidableEq, Repr

/-- Keys that can reach the keyboard model. -/
inductive Key
  | escape
  | space
  | other (code : Nat)
  deriving DecidableEq, Repr

/-- Callbacks the programs register. -/
inductive Callback
  | setShouldClose
  | toggleModel
  | onWindowResize
  deriving DecidableEq, Repr

/-- The state of a `*glfw.Window` that the programs depend on. -/
structure Window where
  shouldClose : Bool := false
  deriving DecidableEq, Repr

/-! ## External calls -/

/-- One call into GLFW, the engine, `fmt` or the graphics provider, with the
arguments the program passes and (for queries) the value the outside returned. -/
inductive Call
  | glfwInit (err : Option String)
  | windowHint (hint : Hint) (value : HintValue)
  | getMonitors (result : List Monitor)
  | createWindow (w h : Int) (title : String) (monitor : Option Monitor) (err : Option String)
  | setSizeCallback (cb : Callback)
  | makeContextCurrent
  | swapInterval (interval : Int)
  | initOpenGL (err : Option String)
  | setGraphics
  | newKeyboardModel
  | bindTrigger (key : Key) (cb : Callback)
  | setupCallbacks
  | newForwardRenderer
  | changeResolution (w h : Int)
  | rendererDestroy
  | setupShadowMapRendering
  | newLight (ptr : Nat)
  | createShadowMap (light : Nat) (size : Int) (near far : ℚ) (dir : Vec3)
  | newOrbitCamera
  | newYawPitchCamera (eye : Vec3)
  | setYawAndPitch (yawDeg pitchDeg : ℚ)
  | enable (cap : Capability)
  | blendFuncSrcAlphaOneMinusSrcAlpha
  | loadShaderProgramFromFiles (path : String) (err : Option String)
  | shaderDestroy (s : Shader)
  | newTextureManager
  | loadTexture (name path : String) (err : Option String)
  | createCube (shaderName : String) (ptr : Nat)
  | createPlaneXY (shaderName : String) (ptr : Nat)
  | printf (format : String) (args : List String)
  | windowShouldClose (result : Bool)
  | setShouldClose (value : Bool)
  | checkKeyPresses
  | getResolution
  | viewport (x y w h : Int)
  | clearColor (r g b a : ℚ)
  | clearColorAndDepth
  | getViewMatrix
  | startShadowMapping
  | getActiveLightCount (result : Int)
  | enableShadowMappingLight (light : Light)
  | drawRenderableWithShader (r : Renderable) (s : Shader) (projection view : Mat4)
  | endShadowMapping
  | drawRenderable (r : Renderable) (perspective view : Mat4)
  | swapBuffers
  | pollEvents
  deriving DecidableEq, Repr

/-! ## Control flow: traces, `defer`, `panic`, `os.Exit` -/

/-- How a Go process stops other than by returning from `main`. -/
inductive Abort
  /-- A call of `panic(msg)`, or a run-time panic. -/
  | panic (msg : String)
  /-- A call of `os.Exit(code)`. -/
  | exit (code : Int)
  /-- The frame schedule given to the model ran out while the window was
  still open: the real program would go on looping. -/
  | outOfFrames
  deriving DecidableEq, Repr

/-- What a piece of Go code did: the calls it made (oldest first), the calls it
deferred in the enclosing function (latest first), and how it ended. -/
structure Out (α : Type) where
  trace : List Call
  defers : List Call
  res : Except Abort α

namespace Out

/-- Finish without any call. -/
def ret {α : Type} (a : α) : Out α := ⟨[], [], .ok a⟩

/-- Sequencing: the second part runs only when the first one ended normally. -/
def andThen {α β : Type} (m : Out α) (f : α → Out β) : Out β :=
  match m.res with
  | .error e => ⟨m.trace, m.defers, .error e⟩
  | .ok a => ⟨m.trace ++ (f a).trace, (f a).defers ++ m.defers, (f a).res⟩

instance : Monad Out where
  pure := ret
  bind := andThen

/-- Perform one external call. -/
def emit (c : Call) : Out Unit := ⟨[c], [], .ok ()⟩

/-- Go's `defer c`: remember the call until the enclosing function ends. -/
def deferCall (c : Call) : Out Unit := ⟨[], [c], .ok ()⟩

/-- Go's `panic(msg)`. -/
def goPanic {α : Type} (msg : String) : Out α := ⟨[], [], .error (.panic msg)⟩

/-- Go's `os.Exit(code)`. -/
def osExit {α : Type} (code : Int) : Out α := ⟨[], [], .error (.exit code)⟩

/-- The model's frame schedule is used up. -/
def stop {α : Type} : Out α := ⟨[], [], .error .outOfFrames⟩

/-- A Go function call: when the body returns or panics its deferred calls run,
latest first; `os.Exit` ends the process without running them.  (When the model
merely runs out of frames the function has not ended, so nothing runs.) -/
def func {α : Type} (body : Out α) : Out α :=
  match body.res with
  | .error (.exit c) => ⟨body.trace, [], .error (.exit c)⟩
  | .error .outOfFrames => ⟨body.trace, [], .error .outOfFrames⟩
  | r => ⟨body.trace ++ body.defers, [], r⟩

/-- Go's slice/array indexing `xs[i]` with its run-time bounds check. -/
def index {α : Type} (xs : List α) (i : Int) : Out α :=
  if i < 0 then goPanic "runtime error: index out of range"
  else match xs[i.toNat]? with
    | some x => ret x
    | none => goPanic "runtime error: index out of range"

/-- Go's indexed store `xs[i] = v` with its run-time bounds check. -/
def store {α : Type} (xs : List α) (i : Nat) (v : α) : Out (List α) :=
  if i < xs.length then ret (xs.set i v)
  else goPanic "runtime error: index out of range"

end Out

/-! ## Reading traces -/

/-- The call is `glfw.CreateWindow`. -/
def isCreateWindow : Call → Bool
  | .createWindow .. => true
  | _ => false

/-- The swap interval a call sets, if it is `glfw.SwapInterval`. -/
def swapIntervalOf : Call → Option Int
  | .swapInterval n => some n
  | _ => none

/-- The call is `fizzle.LoadShaderProgramFromFiles`. -/
def isShaderLoad : Call → Bool
  | .loadShaderProgramFromFiles .. => true
  | _ => false

/-- The path of a shader load. -/
def shaderLoadPath : Call → Option String
  | .loadShaderProgramFromFiles path _ => some path
  | _ => none

/-- The call is `Destroy()` on a shader. -/
def isShaderDestroy : Call → Bool
  | .shaderDestroy _ => true
  | _ => false

/-- The call is one of the set-up steps that hand back an error value to be
checked: window creation, a shader load or a texture load. -/
def isLoadStep : Call → Bool
  | .createWindow .. => true
  | .loadShaderProgramFromFiles .. => true
  | .loadTexture .. => true
  | _ => false

/-- The call is a set-up step that returned an error. -/
def stepFailed : Call → Bool
  | .createWindow _ _ _ _ (some _) => true
  | .loadShaderProgramFromFiles _ (some _) => true
  | .loadTexture _ _ (some _) => true
  | _ => false

/-- The call is `mainWindow.ShouldClose()`, the condition of the render loop. -/
def isShouldCloseRead : Call → Bool
  | .windowShouldClose _ => true
  | _ => false

/-- The call is a read of the should-close flag that returned `true`. -/
def isClosedRead : Call → Bool
  | .windowShouldClose true => true
  | _ => false

/-- The call is `kbModel.CheckKeyPresses()`, the first statement of cubeBreak's
loop body. -/
def isCheckKeyPresses : Call → Bool
  | .checkKeyPresses => true
  | _ => false

/-- The call is `renderer.DrawRenderable`, a draw of the main pass. -/
def isMainDraw : Call → Bool
  | .drawRenderable .. => true
  | _ => false

/-- The call is `renderer.DrawRenderableWithShader`, a draw of the shadow pass. -/
def isShadowDraw : Call → Bool
  | .drawRenderableWithShader .. => true
  | _ => false

/-- The call belongs to the per-light part of the shadow pass. -/
def isShadowCall : Call → Bool
  | .enableShadowMappingLight _ => true
  | .drawRenderableWithShader .. => true
  | _ => false

/-- The call is `mainWindow.SwapBuffers()`, the present. -/
def isPresent : Call → Bool
  | .swapBuffers => true
  | _ => false

/-- The call is written in the condition or the body of a render loop (and is
written nowhere else in either program). -/
def isLoopCall : Call → Bool
  | .windowShouldClose _ => true
  | .checkKeyPresses => true
  | .getResolution => true
  | .viewport .. => true
  | .clearColor .. => true
  | .clearColorAndDepth => true
  | .getViewMatrix => true
  | .startShadowMapping => true
  | .getActiveLightCount _ => true
  | .enableShadowMappingLight _ => true
  | .drawRenderableWithShader .. => true
  | .endShadowMapping => true
  | .drawRenderable .. => true
  | .swapBuffers => true
  | .pollEvents => true
  | _ => false

/-- The lights passed to `renderer.EnableShadowMappingLight`, in call order. -/
def enabledLights : List Call → List Light
  | [] => []
  | .enableShadowMappingLight l :: rest => l :: enabledLights rest
  | _ :: rest => enabledLights rest

/-- In the trace `t`, no call satisfying `q` comes after a call satisfying `p`. -/
def NeverAfter (p q : Call → Bool) (t : List Call) : Prop :=
  ∀ (before : List Call) (c : Call) (after : List Call),
    t = before ++ c :: after → p c = true → ∀ d ∈ after, q d = false

/-- Executable form of `NeverAfter`. -/
def neverAfterB (p q : Call → Bool) : List Call → Bool
  | [] => true
  | c :: rest => (!p c || rest.all (fun d => !q d)) && neverAfterB p q rest

/-- Replays a trace and checks every `DrawRenderable` call: the shader of the
renderable drawn must not be among the shaders destroyed so far.  `destroyed`
holds the shaders destroyed before the trace starts. -/
def drawsLive (destroyed : List Shader) : List Call → Bool
  | [] => true
  | .shaderDestroy s :: rest => drawsLive (s :: destroyed) rest
  | .drawRenderable r _ _ :: rest =>
    (match r.shader with
      | some s => !destroyed.contains s
      | none => true) && drawsLive destroyed rest
  | _ :: rest => drawsLive destroyed rest

end Fizzle

/-! # blendBlink.go -/

namespace BlendBlink

open Fizzle Fizzle.Out

def windowWidth : Int := 640
def windowHeight : Int := 480

def diffuseTexBumpedShaderPath : String := "./assets/forwardshaders/diffuse_texbumped_shadows"
def shadowmapTextureShaderPath : String := "./assets/forwardshaders/shadowmap_texture"
def shadowmapShaderPath : String := "./assets/forwardshaders/shadowmap_generator"
def explosionPath : String := "./assets/textures/explosion00.png"
def testDiffusePath : String := "./assets/textures/TestCube_D.png"
def testNormalsPath : String := "./assets/textures/TestCube_N.png"
/-- The local `blenShaderPath` of `main`. -/
def blenShaderPath : String := "assets/forwardshaders/blend"

/-- Everything the outside world decides in a run of blendBlink. -/
structure Env where
  /-- Value of the `-desktop` flag after `flag.Parse()` (default `-1`). -/
  flagDesktopNumber : Int
  /-- Result of `glfw.GetMonitors()`. -/
  monitors : List Monitor
  /-- Error returned by `glfw.Init()`, `none` for `nil`. -/
  glfwInitErr : Option String
  /-- Error returned by `glfw.CreateWindow`. -/
  createWindowErr : Option String
  /-- Error returned by `opengl.InitOpenGL()`. -/
  initOpenGLErr : Option String
  /-- Error returned by `fizzle.LoadShaderProgramFromFiles(path, nil)`. -/
  loadShaderErr : String → Option String
  /-- Error returned by `textureMan.LoadTexture(name, path)`. -/
  loadTextureErr : String → Option String
  /-- Content of `renderer.ActiveLights` as `NewForwardRenderer` leaves it. -/
  activeLights : List (Option Light)
  /-- What `renderer.GetActiveLightCount()` answers for a given content. -/
  getActiveLightCount : List (Option Light) → Int
  /-- The shadow map `light.CreateShadowMap` stores in the light. -/
  shadowMap : ShadowMap

/-- What happens during one pass through the loop body: whether the user asked
to close the window before `glfw.PollEvents` returned. -/
structure Frame where
  closeRequested : Bool
  deriving DecidableEq, Repr

/-- Lines 249-256 of `initGraphics`: clamp the flag and pick the monitor.
Returns the new value of `flagDesktopNumber` and `monitorToUse`. -/
def selectMonitor (flagDesktopNumber : Int) (monitors : List Monitor) :
    Out (Int × Option Monitor) := do
  let flagDesktopNumber :=
    if flagDesktopNumber ≥ (monitors.length : Int) then -1 else flagDesktopNumber
  if flagDesktopNumber ≥ 0 then
    let m ← index monitors flagDesktopNumber
    return (flagDesktopNumber, some m)
  else
    return (flagDesktopNumber, none)

/-- The function `initGraphics(title, w, h)` of blendBlink.go. -/
def initGraphics (env : Env) (title : String) (w h : Int) : Out Window := func do
  emit (.glfwInit env.glfwInitErr)
  if let some e := env.glfwInitErr then
    goPanic ("Can't init glfw! " ++ e)
  emit (.windowHint .samples (.int 0))
  emit (.windowHint .contextVersionMajor (.int 3))
  emit (.windowHint .contextVersionMinor (.int 3))
  emit (.windowHint .openGLForwardCompatible .glfwTrue)
  emit (.windowHint .openGLProfile .openGLCoreProfile)
  emit (.getMonitors env.monitors)
  let (_, monitorToUse) ← selectMonitor env.flagDesktopNumber env.monitors
  emit (.createWindow w h title monitorToUse env.createWindowErr)
  if let some e := env.createWindowErr then
    goPanic ("Failed to create the main window! " ++ e)
  emit (.setSizeCallback .onWindowResize)
  emit .makeContextCurrent
  emit (.swapInterval 1)
  emit (.initOpenGL env.initOpenGLErr)
  if let some e := env.initOpenGLErr then
    goPanic ("Failed to initialize OpenGL! " ++ e)
  emit .setGraphics
  return {}

/-- The objects `main` has built when it reaches the render loop. -/
structure Scene where
  smoke : Renderable
  floorPlane : Renderable
  testCube : Renderable
  shadowmapShader : Shader
  activeLights : List (Option Light)

/-- Lines 193-206 of `main`: the body of the `for lightI` loop, run for the
given values of `lightI` in turn. -/
def shadowLights (sc : Scene) : List Nat → Out Unit
  | [] => ret ()
  | lightI :: rest => do
    let entry ← index sc.activeLights lightI
    match entry with
    | none => goPanic "runtime error: invalid memory address or nil pointer dereference"
    | some lightToCast =>
      match lightToCast.shadowMap with
      | none => shadowLights sc rest
      | some shadowMap => do
        emit (.enableShadowMappingLight lightToCast)
        emit (.drawRenderableWithShader sc.testCube sc.shadowmapShader
          shadowMap.projection shadowMap.view)
        emit (.drawRenderableWithShader sc.floorPlane sc.shadowmapShader
          shadowMap.projection shadowMap.view)
        shadowLights sc rest

/-- Lines 190-208 of `main`: the shadow pass of one frame. -/
def shadowPass (getActiveLightCount : List (Option Light) → Int) (sc : Scene) : Out Unit := do
  emit .startShadowMapping
  let lightCount := getActiveLightCount sc.activeLights
  emit (.getActiveLightCount lightCount)
  if lightCount ≥ 1 then
    shadowLights sc (List.range lightCount.toNat)
  emit .endShadowMapping

/-- Lines 189-227 of `main`: the body of the render loop. -/
def renderFrame (getActiveLightCount : List (Option Light) → Int) (sc : Scene) : Out Unit := do
  shadowPass getActiveLightCount sc
  emit (.viewport 0 0 windowWidth windowHeight)
  emit (.clearColor 0.1 0.1 0.1 0.9)
  emit .clearColorAndDepth
  let perspective := Mat4.perspective 60.0 windowWidth windowHeight 0.1 50.0
  emit .getViewMatrix
  let view := Mat4.cameraView
  emit (.drawRenderable sc.smoke perspective view)
  emit (.drawRenderable sc.testCube perspective view)
  emit (.drawRenderable sc.floorPlane perspective view)
  emit .swapBuffers
  emit .pollEvents

/-- Lines 187-228 of `main`: `for !mainWindow.ShouldClose() { ... }`. -/
def renderLoop (getActiveLightCount : List (Option Light) → Int) (sc : Scene) :
    List Frame → Window → Out Unit
  | frames, mainWindow => do
    emit (.windowShouldClose mainWindow.shouldClose)
    if mainWindow.shouldClose then
      return ()
    else
      match frames with
      | [] => stop
      | frame :: rest => do
        renderFrame getActiveLightCount sc
        renderLoop getActiveLightCount sc rest
          { mainWindow with shouldClose := mainWindow.shouldClose || frame.closeRequested }

/-- Lines 65-122 of `main`: the shader and texture loads.  Returns the four
shaders and three textures in load order. -/
def loadAssets (env : Env) : Out ((Shader × Shader × Shader × Shader) × (Texture × Texture × Texture)) := do
  emit (.loadShaderProgramFromFiles blenShaderPath (env.loadShaderErr blenShaderPath))
  if let some e := env.loadShaderErr blenShaderPath then
    goPanic ("Failed to compile and link the color shader program! " ++ e)
  let blendShader : Shader := ⟨0⟩
  deferCall (.shaderDestroy blendShader)
  emit (.loadShaderProgramFromFiles diffuseTexBumpedShaderPath
    (env.loadShaderErr diffuseTexBumpedShaderPath))
  if let some e := env.loadShaderErr diffuseTexBumpedShaderPath then
    emit (.printf "Failed to compile and link the diffuse shader program!\n%v" [e])
    osExit 1
  let diffuseTexBumpedShader : Shader := ⟨1⟩
  deferCall (.shaderDestroy diffuseTexBumpedShader)
  emit (.loadShaderProgramFromFiles shadowmapTextureShaderPath
    (env.loadShaderErr shadowmapTextureShaderPath))
  if let some e := env.loadShaderErr shadowmapTextureShaderPath then
    emit (.printf "Failed to compile and link the color texture shader program!\n%v" [e])
    osExit 1
  let shadowmapTextureShader : Shader := ⟨2⟩
  deferCall (.shaderDestroy shadowmapTextureShader)
  emit (.loadShaderProgramFromFiles shadowmapShaderPath (env.loadShaderErr shadowmapShaderPath))
  if let some e := env.loadShaderErr shadowmapShaderPath then
    emit (.printf "Failed to compile and link the shadowmap generator shader program!\n%v" [e])
    osExit 1
  let shadowmapShader : Shader := ⟨3⟩
  deferCall (.shaderDestroy shadowmapShader)
  emit .newTextureManager
  emit (.loadTexture "explosion" explosionPath (env.loadTextureErr explosionPath))
  if let some e := env.loadTextureErr explosionPath then
    emit (.printf "Failed to load the diffuse texture at %s!\n%v" [explosionPath, e])
    osExit 1
  let explosionTex : Texture := ⟨0⟩
  emit (.loadTexture "cube_diffuse" testDiffusePath (env.loadTextureErr testDiffusePath))
  if let some e := env.loadTextureErr testDiffusePath then
    emit (.printf "Failed to load the diffuse texture at %s!\n%v" [testDiffusePath, e])
    osExit 1
  let diffuseTex : Texture := ⟨1⟩
  emit (.loadTexture "cube_diffuse" testNormalsPath (env.loadTextureErr testNormalsPath))
  if let some e := env.loadTextureErr testNormalsPath then
    emit (.printf "Failed to load the normals texture at %s!\n%v" [testNormalsPath, e])
    osExit 1
  let normalsTex : Texture := ⟨2⟩
  return ((blendShader, diffuseTexBumpedShader, shadowmapTextureShader, shadowmapShader),
    (explosionTex, diffuseTex, normalsTex))

/-- Lines 126-184 of `main`: the scene objects, the light, the camera and the
OpenGL flags. -/
def buildScene (env : Env) (shaders : Shader × Shader × Shader × Shader)
    (textures : Texture × Texture × Texture) : Out Scene := do
  let (blendShader, diffuseTexBumpedShader, _, shadowmapShader) := shaders
  let (explosionTex, diffuseTex, normalsTex) := textures
  emit (.createPlaneXY "diffuse_texbumped" 0)
  let smoke : Renderable :=
    { ptr := 0, shaderName := "diffuse_texbumped", mesh := .planeXY (-0.5) 0.5 0.5 (-0.5),
      scale := some ⟨10, 10, 10⟩, diffuseColor := some ⟨1, 0, 0, 0.5⟩, shininess := some 3.0,
      tex0 := some explosionTex, shader := some blendShader, location := some ⟨0, 0, 0⟩ }
  emit (.createPlaneXY "diffuse_texbumped" 1)
  let floorPlane : Renderable :=
    { ptr := 1, shaderName := "diffuse_texbumped", mesh := .planeXY (-0.5) 0.5 0.5 (-0.5),
      scale := some ⟨10, 10, 10⟩, diffuseColor := some ⟨1, 1, 1, 1⟩,
      specularColor := some ⟨0.3, 0.3, 0.3, 1.0⟩, shininess := some 3.0,
      tex0 := some diffuseTex, tex1 := some normalsTex, shader := some diffuseTexBumpedShader,
      location := some ⟨0, 0, -2⟩ }
  emit (.createCube "diffuse_texbumped" 2)
  let testCube : Renderable :=
    { ptr := 2, shaderName := "diffuse_texbumped",
      mesh := .cube (-0.5) (-0.5) (-0.5) 0.5 0.5 0.5,
      diffuseColor := some ⟨1.0, 1.0, 1.0, 1.0⟩, specularColor := some ⟨0.3, 0.3, 0.3, 1.0⟩,
      shininess := some 6.0, tex0 := some diffuseTex, tex1 := some normalsTex,
      shader := some diffuseTexBumpedShader }
  emit .setupShadowMapRendering
  emit (.newLight 0)
  let light : Light :=
    { ptr := 0, position := some ⟨5.0, 3, 5.0⟩, diffuseColor := some ⟨0.9, 0.9, 0.9, 1.0⟩,
      diffuseIntensity := some 30, ambientIntensity := some 0.50, attenuation := some 0.2 }
  let activeLights ← store env.activeLights 0 (some light)
  emit (.createShadowMap 0 4096 0.5 50.0 ⟨-5.0, -3.0, -5.0⟩)
  -- `ActiveLights[0]` is the pointer `light`, so it sees the new shadow map
  let light := { light with shadowMap := some env.shadowMap }
  let activeLights := activeLights.set 0 (some light)
  emit (.newYawPitchCamera ⟨0, -10, 10⟩)
  emit (.setYawAndPitch 0.0 (-45))
  emit (.enable .cullFace)
  emit (.enable .depthTest)
  emit (.enable .programPointSize)
  emit (.enable .texture2D)
  emit (.enable .blend)
  emit .blendFuncSrcAlphaOneMinusSrcAlpha
  return { smoke := smoke, floorPlane := floorPlane, testCube := testCube,
           shadowmapShader := shadowmapShader, activeLights := activeLights }

/-- Lines 58-184 of `main`: everything before the render loop.  Returns the
window and the scene built. -/
def setup (env : Env) : Out (Window × Scene) := do
  let mainWindow ← initGraphics env "go" windowWidth windowHeight
  emit .newForwardRenderer
  let (shaders, textures) ← loadAssets env
  let sc ← buildScene env shaders textures
  return (mainWindow, sc)

/-- The function `main()` of blendBlink.go, run against the environment `env`
with the given schedule of frames: the set-up, then the render loop; the
deferred shader destructions run when `main` returns or panics. -/
def main (env : Env) (frames : List Frame) : Out Unit := func do
  let (mainWindow, sc) ← setup env
  renderLoop env.getActiveLightCount sc frames mainWindow

/-- Window creation, the four shader loads and the three texture loads of
blendBlink all return a nil error. -/
def StepsSucceed (env : Env) : Prop :=
  env.createWindowErr = none ∧
  env.loadShaderErr blenShaderPath = none ∧
  env.loadShaderErr diffuseTexBumpedShaderPath = none ∧
  env.loadShaderErr shadowmapTextureShaderPath = none ∧
  env.loadShaderErr shadowmapShaderPath = none ∧
  env.loadTextureErr explosionPath = none ∧
  env.loadTextureErr testDiffusePath = none ∧
  env.loadTextureErr testNormalsPath = none

/-- The process was aborted by `panic` or by `os.Exit(1)`. -/
def Aborted {α : Type} (r : Except Abort α) : Prop :=
  r = .error (.exit 1) ∨ ∃ msg, r = .error (.panic msg)

/-- The first `n` entries of `renderer.ActiveLights` exist and are non-nil:
the lights are packed at the front and `n` does not count past them. -/
def Packed (lights : List (Option Light)) (n : Int) : Prop :=
  ∀ i : Nat, (i : Int) < n → ∃ l, lights[i]? = some (some l)

/-- The shadow-pass calls expected for one entry of `ActiveLights`: a light with
a shadow map is enabled and followed by the shadow draws of `testCube` and
`floorPlane` with its projection and view; any other entry gets no call. -/
def shadowCallsFor (sc : Scene) : Option Light → List Call
  | some l =>
    match l.shadowMap with
    | some shadowMap =>
      [.enableShadowMappingLight l,
       .drawRenderableWithShader sc.testCube sc.shadowmapShader shadowMap.projection shadowMap.view,
       .drawRenderableWithShader sc.floorPlane sc.shadowmapShader shadowMap.projection shadowMap.view]
    | none => []
  | none => []

/-- The calls of one frame that follow the per-light shadow calls. -/
def afterShadowCalls (sc : Scene) : List Call :=
  [.endShadowMapping,
   .viewport 0 0 windowWidth windowHeight,
   .clearColor 0.1 0.1 0.1 0.9,
   .clearColorAndDepth,
   .getViewMatrix,
   .drawRenderable sc.smoke (.perspective 60.0 windowWidth windowHeight 0.1 50.0) .cameraView,
   .drawRenderable sc.testCube (.perspective 60.0 windowWidth windowHeight 0.1 50.0) .cameraView,
   .drawRenderable sc.floorPlane (.perspective 60.0 windowWidth windowHeight 0.1 50.0) .cameraView,
   .swapBuffers,
   .pollEvents]

/-- The engine's light count: the number of leading non-nil entries. -/
def leadingLights (lights : List (Option Light)) : Int :=
  ((lights.takeWhile Option.isSome).length : Int)

/-- A run in which every external step succeeds, on a machine with one monitor
and an engine with four light slots. -/
def quietEnv : Env :=
  { flagDesktopNumber := -1
    monitors := [⟨0⟩]
    glfwInitErr := none
    createWindowErr := none
    initOpenGLErr := none
    loadShaderErr := fun _ => none
    loadTextureErr := fun _ => none
    activeLights := [none, none, none, none]
    getActiveLightCount := leadingLights
    shadowMap := ⟨.engine 0, .engine 1⟩ }

/-- A run in which everything succeeds except the load of the normals texture. -/
def missingNormalsEnv : Env :=
  { quietEnv with
    loadTextureErr := fun path =>
      if path = testNormalsPath then some "open: no such file or directory" else none }

/-- A light with identity `ptr` that has a shadow map. -/
def shadowLight (ptr : Nat) : Light :=
  { ptr := ptr, shadowMap := some ⟨.engine (2 * ptr), .engine (2 * ptr + 1)⟩ }

/-- A scene with two packed lights, the first with a shadow map, the second
without. -/
def packedScene : Scene :=
  { smoke := { ptr := 0, shaderName := "diffuse_texbumped", mesh := .planeXY (-0.5) 0.5 0.5 (-0.5) }
    floorPlane := { ptr := 1, shaderName := "diffuse_texbumped", mesh := .planeXY (-0.5) 0.5 0.5 (-0.5) }
    testCube := { ptr := 2, shaderName := "diffuse_texbumped", mesh := .cube (-0.5) (-0.5) (-0.5) 0.5 0.5 0.5 }
    shadowmapShader := ⟨3⟩
    activeLights := [some (shadowLight 0), some { ptr := 1 }, none, none] }

/-- The light count `n` counts exactly the configured lights, which sit at the
front of `renderer.ActiveLights`: the first `n` entries are non-nil and every
entry after them is nil. -/
def CountsConfigured (lights : List (Option Light)) (n : Int) : Prop :=
  Packed lights n ∧ ∀ e ∈ lights.drop n.toNat, e = none

/-- The scene `main` has built when it reaches the render loop, `none` when the
set-up was aborted. -/
def builtScene (env : Env) : Option Scene :=
  match (setup env).res with
  | .ok p => some p.2
  | .error _ => none

end BlendBlink

/-! # cubeBreak.go -/

namespace CubeBreak

open Fizzle Fizzle.Out

def windowWidth : Int := 800
def windowHeight : Int := 600
def diffuseShaderPath : String := "./assets/forwardshaders/diffuse"

/-- Everything the outside world decides in a run of cubeBreak, apart from the
input events. -/
structure Env where
  /-- Error returned by `glfw.Init()`, `none` for `nil`. -/
  glfwInitErr : Option String
  /-- Error returned by `glfw.CreateWindow`. -/
  createWindowErr : Option String
  /-- Error returned by `opengl.InitOpenGL()`. -/
  initOpenGLErr : Option String
  /-- Error returned by the `k`-th call (counting from 0) of
  `fizzle.LoadShaderProgramFromFiles(diffuseShaderPath, nil)`. -/
  loadShaderErr : Nat → Option String
  /-- Content of `renderer.ActiveLights` as `NewForwardRenderer` leaves it. -/
  activeLights : List (Option Light)

/-- An input event that GLFW hands to the program. -/
inductive Input
  /-- A key was pressed: the trigger bound to it (if any) is called. -/
  | key (k : Key)
  /-- The user asked the window to close (close button). -/
  | close
  /-- The window was resized: the size callback is called. -/
  | resize (width height : Int)
  deriving DecidableEq, Repr

/-- The input of one pass through the loop body.  The keyboard model is part of
the engine, so triggers are allowed to fire at either of the two places where
the loop hands control to it. -/
structure Frame where
  /-- Keys whose triggers fire inside `kbModel.CheckKeyPresses()`. -/
  duringCheck : List Key
  /-- Events handled inside `glfw.PollEvents()`, in order. -/
  duringPoll : List Input
  deriving DecidableEq, Repr

/-- The package-level variables of cubeBreak.go and the allocation counters. -/
structure World where
  /-- The should-close flag of `mainWindow`. -/
  mainWindow : Window := {}
  /-- The map `objects`: its keys (pointers to renderables, in some iteration
  order) with their values. -/
  objects : List (Renderable × Bool) := []
  /-- The resolution stored in `renderer`. -/
  resolution : Int × Int := (0, 0)
  /-- Number of renderables created so far (the next pointer identity). -/
  nextPtr : Nat := 0
  /-- Number of shader loads attempted so far. -/
  loads : Nat := 0
  deriving DecidableEq, Repr

/-- Go's `m[k] = v` on the map `objects`, keyed by pointer identity. -/
def mapSet (m : List (Renderable × Bool)) (k : Renderable) (v : Bool) :
    List (Renderable × Bool) :=
  if m.any (fun e => e.1.ptr == k.ptr) then
    m.map (fun e => if e.1.ptr == k.ptr then (e.1, v) else e)
  else
    m ++ [(k, v)]

/-- The function `initGraphics(title, w, h)` of cubeBreak.go. -/
def initGraphics (env : Env) (title : String) (w h : Int) : Out Window := func do
  emit (.glfwInit env.glfwInitErr)
  if let some e := env.glfwInitErr then
    goPanic ("Can't init glfw! " ++ e)
  emit (.windowHint .samples (.int 0))
  emit (.windowHint .contextVersionMajor (.int 3))
  emit (.windowHint .contextVersionMinor (.int 3))
  emit (.windowHint .openGLForwardCompatible .glfwTrue)
  emit (.windowHint .openGLProfile .openGLCoreProfile)
  emit (.createWindow w h title none env.createWindowErr)
  if let some e := env.createWindowErr then
    goPanic ("Failed to create the main window! " ++ e)
  emit (.setSizeCallback .onWindowResize)
  emit .makeContextCurrent
  emit (.swapInterval 0)
  emit (.initOpenGL env.initOpenGLErr)
  if let some e := env.initOpenGLErr then
    goPanic ("Failed to initialize OpenGL! " ++ e)
  emit .setGraphics
  return {}

/-- The function `setShouldClose()`: `mainWindow.SetShouldClose(true)`. -/
def setShouldClose (w : World) : Out World := func do
  emit (.setShouldClose true)
  return { w with mainWindow := { w.mainWindow with shouldClose := true } }

/-- The function `onWindowResize(w, width, height)`. -/
def onWindowResize (w : World) (width height : Int) : Out World := func do
  emit (.changeResolution width height)
  return { w with resolution := (width, height) }

/-- The function `toggleModel()`. -/
def toggleModel (env : Env) (w : World) : Out World := func do
  if w.objects.length == 0 then
    emit (.createCube "diffuse" w.nextPtr)
    let object : Renderable :=
      { ptr := w.nextPtr, shaderName := "diffuse", mesh := .cube (-1) (-1) (-1) 1 1 1 }
    emit (.loadShaderProgramFromFiles diffuseShaderPath (env.loadShaderErr w.loads))
    if let some e := env.loadShaderErr w.loads then
      emit (.printf "Failed to compile and link the diffuse shader program!\n%v" [e])
      osExit 1
    let diffuseShader : Shader := ⟨w.loads⟩
    deferCall (.shaderDestroy diffuseShader)
    let object :=
      { object with
        shader := some diffuseShader
        diffuseColor := some ⟨0.9, 0.05, 0.05, 1.0⟩
        specularColor := some ⟨1.0, 1.0, 1.0, 1.0⟩ }
    return { w with
      objects := mapSet w.objects object true
      nextPtr := w.nextPtr + 1
      loads := w.loads + 1 }
  else
    return { w with objects := [] }

/-- The callback bound to a key by the `BindTrigger` calls of `main`. -/
def trigger (env : Env) (k : Key) (w : World) : Out World :=
  match k with
  | .escape => setShouldClose w
  | .space => toggleModel env w
  | .other _ => ret w

/-- What the program does for one input event. -/
def handle (env : Env) (i : Input) (w : World) : Out World :=
  match i with
  | .key k => trigger env k w
  | .close => ret { w with mainWindow := { w.mainWindow with shouldClose := true } }
  | .resize width height => onWindowResize w width height

/-- Key triggers fired one after the other. -/
def fireKeys (env : Env) : List Key → World → Out World
  | [], w => ret w
  | k :: rest, w => do
    let w ← trigger env k w
    fireKeys env rest w

/-- Input events handled one after the other. -/
def handleAll (env : Env) : List Input → World → Out World
  | [], w => ret w
  | i :: rest, w => do
    let w ← handle env i w
    handleAll env rest w

/-- Lines 117-119 of `main`: `for object, _ := range objects`. -/
def drawObjects (perspective view : Mat4) : List (Renderable × Bool) → Out Unit
  | [] => ret ()
  | (object, _) :: rest => do
    emit (.drawRenderable object perspective view)
    drawObjects perspective view rest

/-- Lines 103-125 of `main`: the body of the render loop. -/
def renderFrame (env : Env) (frame : Frame) (w : World) : Out World := do
  emit .checkKeyPresses
  let w ← fireKeys env frame.duringCheck w
  emit .getResolution
  let (width, height) := w.resolution
  emit (.viewport 0 0 width height)
  emit (.clearColor 0.25 0.25 0.25 1.0)
  emit .clearColorAndDepth
  let perspective := Mat4.perspective 60.0 width height 1.0 100.0
  emit .getViewMatrix
  let view := Mat4.cameraView
  drawObjects perspective view w.objects
  emit .swapBuffers
  emit .pollEvents
  handleAll env frame.duringPoll w

/-- Lines 101-126 of `main`: `for !mainWindow.ShouldClose() { ... }`. -/
def renderLoop (env : Env) : List Frame → World → Out World
  | frames, w => do
    emit (.windowShouldClose w.mainWindow.shouldClose)
    if w.mainWindow.shouldClose then
      return w
    else
      match frames with
      | [] => stop
      | frame :: rest => do
        let w ← renderFrame env frame w
        renderLoop env rest w

/-- Lines 66-98 of `main`: everything before the render loop.  Returns the
package-level state at that point. -/
def setup (env : Env) : Out World := do
  let mainWindow ← initGraphics env "Simple Cube" windowWidth windowHeight
  let w : World := { mainWindow := mainWindow }
  emit .newKeyboardModel
  emit (.bindTrigger .escape .setShouldClose)
  emit (.bindTrigger .space .toggleModel)
  emit .setupCallbacks
  emit .newForwardRenderer
  emit (.changeResolution windowWidth windowHeight)
  let w := { w with resolution := (windowWidth, windowHeight) }
  deferCall .rendererDestroy
  emit (.newLight 0)
  let light : Light :=
    { ptr := 0, diffuseColor := some ⟨1.0, 1.0, 1.0, 1.0⟩, direction := some ⟨1.0, -0.5, -1.0⟩,
      diffuseIntensity := some 0.70, specularIntensity := some 0.10,
      ambientIntensity := some 0.20, attenuation := some 1.0 }
  let _ ← store env.activeLights 0 (some light)
  emit .newOrbitCamera
  emit (.enable .cullFace)
  emit (.enable .depthTest)
  return w

/-- The function `main()` of cubeBreak.go, run against the environment `env`
with the given schedule of frames: the set-up, then the render loop; the
deferred `renderer.Destroy()` runs when `main` returns.  Returns the final
package-level state. -/
def main (env : Env) (frames : List Frame) : Out World := func do
  let w ← setup env
  renderLoop env frames w

/-- The calls of one pass through the render loop: the read of the should-close
flag (which returned `false`), then `CheckKeyPresses`, then the rest of the
body, in which the flag is not read again. -/
def IsIteration (calls : List Call) : Prop :=
  ∃ body, calls = .windowShouldClose false :: .checkKeyPresses :: body ∧
    ∀ c ∈ body, isShouldCloseRead c = false ∧ isCheckKeyPresses c = false

/-- The active object set holds exactly one renderable, a cube with the corners
`toggleModel` asks for. -/
def HoldsOneCube (objects : List (Renderable × Bool)) : Prop :=
  ∃ cube, objects = [(cube, true)] ∧ cube.mesh = .cube (-1) (-1) (-1) 1 1 1

/-- A run in which every external step succeeds. -/
def quietEnv : Env :=
  { glfwInitErr := none
    createWindowErr := none
    initOpenGLErr := none
    loadShaderErr := fun _ => none
    activeLights := [none, none, none, none] }

end CubeBreak

/-! # Theorems -/

open Fizzle Fizzle.Out

namespace Fizzle

namespace Out

theorem bind_eq {α β : Type} (m : Out α) (f : α → Out β) : (m >>= f) = andThen m f := rfl

theorem pure_eq {α : Type} (a : α) : (pure a : Out α) = ret a := rfl

end Out

/-! ## `NeverAfter` -/

theorem neverAfter_nil (p q : Call → Bool) : NeverAfter p q [] := by
  intro before c after h
  simp at h

theorem neverAfter_cons (p q : Call → Bool) (c : Call) (t : List Call) :
    NeverAfter p q (c :: t) ↔ (p c = true → ∀ d ∈ t, q d = false) ∧ NeverAfter p q t := by
  constructor
  · intro h
    refine ⟨fun hp d hd => h [] c t rfl hp d hd, ?_⟩
    intro before x after ht hx d hd
    exact h (c :: before) x after (by simp [ht]) hx d hd
  · rintro ⟨h1, h2⟩ before x after ht hx d hd
    cases before with
    | nil =>
      simp at ht
      obtain ⟨rfl, rfl⟩ := ht
      exact h1 hx d hd
    | cons b bs =>
      simp at ht
      exact h2 bs x after ht.2 hx d hd

theorem neverAfter_append (p q : Call → Bool) (s t : List Call) :
    NeverAfter p q (s ++ t) ↔
      NeverAfter p q s ∧ NeverAfter p q t ∧
        ((∃ c ∈ s, p c = true) → ∀ d ∈ t, q d = false) := by
  induction s with
  | nil => simp [neverAfter_nil]
  | cons a s ih =>
    simp only [List.cons_append, neverAfter_cons, ih, List.mem_append, List.mem_cons]
    constructor
    · rintro ⟨h1, h2, h3, h4⟩
      refine ⟨⟨fun hp d hd => h1 hp d (Or.inl hd), h2⟩, h3, ?_⟩
      rintro ⟨c, hc | hc, hpc⟩ d hd
      · subst hc; exact h1 hpc d (Or.inr hd)
      · exact h4 ⟨c, hc, hpc⟩ d hd
    · rintro ⟨⟨h1, h2⟩, h3, h4⟩
      refine ⟨?_, h2, h3, fun ⟨c, hc, hpc⟩ d hd => h4 ⟨c, Or.inr hc, hpc⟩ d hd⟩
      rintro hp d (hd | hd)
      · exact h1 hp d hd
      · exact h4 ⟨a, Or.inl rfl, hp⟩ d hd

theorem neverAfter_iff (p q : Call → Bool) (t : List Call) :
    NeverAfter p q t ↔ neverAfterB p q t = true := by
  induction t with
  | nil => simp [neverAfter_nil, neverAfterB]
  | cons c t ih =>
    rw [neverAfter_cons, ih]
    cases hp : p c <;> simp [neverAfterB, hp]

/-- When no call of `t` satisfies `p`, nothing can come after one. -/
theorem neverAfter_of_none (p q : Call → Bool) (t : List Call) (h : ∀ c ∈ t, p c = false) :
    NeverAfter p q t := by
  intro before c after ht hp
  have : c ∈ t := by simp [ht]
  simp [h c this] at hp

/-- When no call of `t` satisfies `q`, none can come after anything. -/
theorem neverAfter_of_none_right (p q : Call → Bool) (t : List Call)
    (h : ∀ c ∈ t, q c = false) : NeverAfter p q t := by
  intro before c after ht _ d hd
  exact h d (by simp [ht, hd])

theorem isLoopCall_of_isShadowCall (c : Call) (h : isShadowCall c = true) :
    isLoopCall c = true := by
  cases c <;> simp_all [isShadowCall, isLoopCall]

theorem loopCall_facts (c : Call) (h : isLoopCall c = true) :
    isShaderLoad c = false ∧ isLoadStep c = false ∧ stepFailed c = false ∧
      isShaderDestroy c = false ∧ shaderLoadPath c = none := by
  cases c <;> simp_all [isLoopCall, isShaderLoad, isLoadStep, stepFailed, isShaderDestroy,
    shaderLoadPath]

theorem shaderDestroy_facts (c : Call) (h : isShaderDestroy c = true) :
    isShaderLoad c = false ∧ isLoadStep c = false ∧ stepFailed c = false ∧
      isLoopCall c = false ∧ shaderLoadPath c = none := by
  cases c <;> simp_all [isLoopCall, isShaderLoad, isLoadStep, stepFailed, isShaderDestroy,
    shaderLoadPath]

theorem filterMap_eq_nil_of_all {α : Type} (f : Call → Option α) (t : List Call)
    (h : ∀ c ∈ t, f c = none) : t.filterMap f = [] := by
  induction t with
  | nil => rfl
  | cons c t ih =>
    have hc := h c (List.mem_cons_self _ _)
    rw [List.filterMap_cons, hc]
    exact ih (fun d hd => h d (List.mem_cons_of_mem _ hd))

theorem not_closedRead_of_not_loopCall (c : Call) (h : isLoopCall c = false) :
    isClosedRead c = false := by
  cases c <;> simp_all [isLoopCall, isClosedRead]

theorem not_closedRead_of_not_read (c : Call) (h : isShouldCloseRead c = false) :
    isClosedRead c = false := by
  cases c <;> simp_all [isShouldCloseRead, isClosedRead]

end Fizzle

namespace BlendBlink

/-! ## blendBlink: the shadow pass -/

theorem shadowLights_visits (sc : Scene) (m : Nat) :
    ∀ k : Nat, ∃ j : Nat, j ≤ m ∧
      (shadowLights sc (List.range' k m)).trace =
        ((sc.activeLights.drop k).take j).flatMap (shadowCallsFor sc) ∧
      (shadowLights sc (List.range' k m)).defers = [] ∧
      (((shadowLights sc (List.range' k m)).res = .ok () ∧ j = m ∧
          ∀ i : Nat, k ≤ i → i < k + m → ∃ l, sc.activeLights[i]? = some (some l)) ∨
       ((∃ msg, (shadowLights sc (List.range' k m)).res = .error (.panic msg)) ∧
          ∃ i : Nat, k ≤ i ∧ i < k + m ∧ ∀ l, sc.activeLights[i]? ≠ some (some l))) := by
  induction m with
  | zero =>
    intro k
    refine ⟨0, le_refl _, ?_, ?_, Or.inl ⟨?_, rfl, ?_⟩⟩ <;> simp [shadowLights, ret]
    intro i h1 h2; omega
  | succ m ih =>
    intro k
    obtain ⟨j, hj, htr, hdef, hres⟩ := ih (k + 1)
    have hneg : ¬ ((k : Int) < 0) := by omega
    cases hk : sc.activeLights[k]? with
    | none =>
      refine ⟨0, Nat.zero_le _, ?_, ?_, Or.inr ⟨?_, k, le_refl _, by omega, ?_⟩⟩ <;>
        simp [List.range', shadowLights, bind_eq, andThen, index, hneg, hk, goPanic]
    | some entry =>
      have hlt : k < sc.activeLights.length := by
        exact (List.getElem?_eq_some_iff.mp hk).1
      have hdrop : sc.activeLights.drop k = entry :: sc.activeLights.drop (k + 1) := by
        rw [List.drop_eq_getElem_cons hlt]
        congr 1
        exact (List.getElem?_eq_some_iff.mp hk).2
      cases entry with
      | none =>
        refine ⟨0, Nat.zero_le _, ?_, ?_, Or.inr ⟨?_, k, le_refl _, by omega, ?_⟩⟩ <;>
          simp [List.range', shadowLights, bind_eq, andThen, index, hneg, hk, goPanic, ret]
      | some l =>
        refine ⟨j + 1, by omega, ?_, ?_, ?_⟩
        · cases hsm : l.shadowMap <;>
            simp [List.range', shadowLights, bind_eq, andThen, index, hneg, hk, ret, htr, hdrop,
              shadowCallsFor, hsm, emit]
        · cases hsm : l.shadowMap <;>
            simp [List.range', shadowLights, bind_eq, andThen, index, hneg, hk, ret, hdef, hsm, emit]
        · have hres_eq : (shadowLights sc (List.range' k (m + 1))).res =
              (shadowLights sc (List.range' (k + 1) m)).res := by
            cases hsm : l.shadowMap <;>
              simp [List.range', shadowLights, bind_eq, andThen, index, hneg, hk, ret, hsm, emit]
          rw [hres_eq]
          rcases hres with ⟨hok, hjm, hall⟩ | ⟨hpanic, i, hi1, hi2, hi3⟩
          · refine Or.inl ⟨hok, by omega, ?_⟩
            intro i h1 h2
            by_cases hik : i = k
            · subst hik; exact ⟨l, hk⟩
            · exact hall i (by omega) (by omega)
          · exact Or.inr ⟨hpanic, i, by omega, by omega, hi3⟩

theorem packed_iff (lights : List (Option Light)) (n : Int) :
    Packed lights n ↔ ∀ i : Nat, 0 ≤ i → i < 0 + n.toNat → ∃ l, lights[i]? = some (some l) := by
  unfold Packed
  constructor
  · intro h i _ hi
    exact h i (by omega)
  · intro h i hi
    exact h i (Nat.zero_le _) (by omega)

/-- The shadow pass either visits all `n` counted entries and ends normally, or
panics at the first counted entry that is missing or nil. -/
theorem shadowPass_cases (gc : List (Option Light) → Int) (sc : Scene) :
    (shadowPass gc sc).defers = [] ∧
    ∃ k : Nat, k ≤ (gc sc.activeLights).toNat ∧
      (((shadowPass gc sc).trace =
          [.startShadowMapping, .getActiveLightCount (gc sc.activeLights)] ++
            (sc.activeLights.take k).flatMap (shadowCallsFor sc) ++ [.endShadowMapping] ∧
        (shadowPass gc sc).res = .ok () ∧ k = (gc sc.activeLights).toNat ∧
        Packed sc.activeLights (gc sc.activeLights)) ∨
       ((shadowPass gc sc).trace =
          [.startShadowMapping, .getActiveLightCount (gc sc.activeLights)] ++
            (sc.activeLights.take k).flatMap (shadowCallsFor sc) ∧
        (∃ msg, (shadowPass gc sc).res = .error (.panic msg)) ∧
        ¬ Packed sc.activeLights (gc sc.activeLights))) := by
  by_cases hn : gc sc.activeLights ≥ 1
  · obtain ⟨j, hj, htr, hdef, hres⟩ :=
      shadowLights_visits sc (gc sc.activeLights).toNat 0
    rw [← List.range_eq_range'] at htr hdef hres
    simp only [List.drop_zero] at htr
    rcases hres with ⟨hok, hjm, hall⟩ | ⟨⟨msg, hpanic⟩, i, hi1, hi2, hi3⟩
    · refine ⟨?_, j, hj, Or.inl ⟨?_, ?_, hjm, (packed_iff _ _).mpr hall⟩⟩ <;>
        simp [shadowPass, bind_eq, andThen, emit, hn, hok, htr, hdef]
    · refine ⟨?_, j, hj, Or.inr ⟨?_, ⟨msg, ?_⟩, ?_⟩⟩
      · simp [shadowPass, bind_eq, andThen, emit, hn, hpanic, hdef]
      · simp [shadowPass, bind_eq, andThen, emit, hn, hpanic, htr]
      · simp [shadowPass, bind_eq, andThen, emit, hn, hpanic]
      · intro hp
        obtain ⟨l, hl⟩ := (packed_iff _ _).mp hp i hi1 hi2
        exact hi3 l hl
  · have h0 : (gc sc.activeLights).toNat = 0 := by omega
    refine ⟨?_, 0, Nat.zero_le _, Or.inl ⟨?_, ?_, h0.symm, ?_⟩⟩
    · simp [shadowPass, bind_eq, andThen, emit, hn, pure_eq, ret]
    · simp [shadowPass, bind_eq, andThen, emit, hn, pure_eq, ret]
    · simp [shadowPass, bind_eq, andThen, emit, hn, pure_eq, ret]
    · intro i hi
      omega

theorem enabledLights_append (s t : List Call) :
    enabledLights (s ++ t) = enabledLights s ++ enabledLights t := by
  induction s with
  | nil => rfl
  | cons c s ih => cases c <;> simp [enabledLights, ih]

theorem enabledLights_flatMap (sc : Scene) (es : List (Option Light)) :
    enabledLights (es.flatMap (shadowCallsFor sc)) =
      es.filterMap (fun e => e.filter (fun l => l.shadowMap.isSome)) := by
  induction es with
  | nil => rfl
  | cons e es ih =>
    rw [List.flatMap_cons, enabledLights_append, ih]
    cases e with
    | none => simp [shadowCallsFor, enabledLights]
    | some l =>
      cases hsm : l.shadowMap <;>
        simp [shadowCallsFor, enabledLights, hsm, Option.filter]

theorem isShadowCall_of_mem_flatMap (sc : Scene) (es : List (Option Light)) :
    ∀ c ∈ es.flatMap (shadowCallsFor sc), isShadowCall c = true := by
  intro c hc
  rw [List.mem_flatMap] at hc
  obtain ⟨e, _, hce⟩ := hc
  cases e with
  | none => simp [shadowCallsFor] at hce
  | some l =>
    cases hsm : l.shadowMap with
    | none => simp [shadowCallsFor, hsm] at hce
    | some sm =>
      simp [shadowCallsFor, hsm] at hce
      rcases hce with rfl | rfl | rfl <;> rfl

theorem renderFrame_cases (gc : List (Option Light) → Int) (sc : Scene) :
    (renderFrame gc sc).defers = [] ∧
    ∃ k : Nat, k ≤ (gc sc.activeLights).toNat ∧
      (((renderFrame gc sc).trace =
          [.startShadowMapping, .getActiveLightCount (gc sc.activeLights)] ++
            (sc.activeLights.take k).flatMap (shadowCallsFor sc) ++ afterShadowCalls sc ∧
        (renderFrame gc sc).res = .ok () ∧ k = (gc sc.activeLights).toNat ∧
        Packed sc.activeLights (gc sc.activeLights)) ∨
       ((renderFrame gc sc).trace =
          [.startShadowMapping, .getActiveLightCount (gc sc.activeLights)] ++
            (sc.activeLights.take k).flatMap (shadowCallsFor sc) ∧
        (∃ msg, (renderFrame gc sc).res = .error (.panic msg)) ∧
        ¬ Packed sc.activeLights (gc sc.activeLights))) := by
  obtain ⟨hdef, k, hk, h⟩ := shadowPass_cases gc sc
  rcases h with ⟨htr, hres, hkn, hp⟩ | ⟨htr, ⟨msg, hres⟩, hp⟩
  · refine ⟨?_, k, hk, Or.inl ⟨?_, ?_, hkn, hp⟩⟩ <;>
      simp [renderFrame, bind_eq, andThen, emit, hres, htr, hdef, afterShadowCalls]
  · refine ⟨?_, k, hk, Or.inr ⟨?_, ⟨msg, ?_⟩, hp⟩⟩ <;>
      simp [renderFrame, bind_eq, andThen, emit, hres, htr, hdef]

theorem not_mainDraw_of_shadowCall (c : Call) (h : isShadowCall c = true) :
    isMainDraw c = false ∧ isPresent c = false := by
  cases c <;> simp_all [isShadowCall, isMainDraw, isPresent]

/-- Within one frame no shadow draw follows a main-pass draw and no main-pass
draw follows the present. -/
theorem renderFrame_order (gc : List (Option Light) → Int) (sc : Scene) :
    NeverAfter isMainDraw isShadowDraw (renderFrame gc sc).trace ∧
    NeverAfter isPresent isMainDraw (renderFrame gc sc).trace := by
  obtain ⟨_, k, _, h⟩ := renderFrame_cases gc sc
  have hsh := isShadowCall_of_mem_flatMap sc (sc.activeLights.take k)
  have h1 : ∀ c ∈ (sc.activeLights.take k).flatMap (shadowCallsFor sc), isMainDraw c = false :=
    fun c hc => (not_mainDraw_of_shadowCall c (hsh c hc)).1
  have h2 : ∀ c ∈ (sc.activeLights.take k).flatMap (shadowCallsFor sc), isPresent c = false :=
    fun c hc => (not_mainDraw_of_shadowCall c (hsh c hc)).2
  rcases h with ⟨htr, _⟩ | ⟨htr, _⟩
  · rw [htr]
    refine ⟨?_, ?_⟩
    · rw [neverAfter_append, neverAfter_append]
      refine ⟨⟨?_, neverAfter_of_none _ _ _ h1, ?_⟩, ?_, ?_⟩
      · simp [neverAfter_cons, neverAfter_nil, isMainDraw]
      · simp [isMainDraw]
      · simp [afterShadowCalls, neverAfter_cons, neverAfter_nil, isMainDraw, isShadowDraw]
      · intro _
        simp [afterShadowCalls, isShadowDraw]
    · rw [neverAfter_append, neverAfter_append]
      refine ⟨⟨?_, neverAfter_of_none _ _ _ h2, ?_⟩, ?_, ?_⟩
      · simp [neverAfter_cons, neverAfter_nil, isPresent]
      · simp [isPresent]
      · simp [afterShadowCalls, neverAfter_cons, neverAfter_nil, isMainDraw, isPresent]
      · rintro ⟨c, hc, hpc⟩
        rw [List.mem_append] at hc
        rcases hc with hc | hc
        · simp at hc
          rcases hc with rfl | rfl <;> simp [isPresent] at hpc
        · simp [h2 c hc] at hpc
  · rw [htr]
    refine ⟨?_, ?_⟩
    · rw [neverAfter_append]
      refine ⟨?_, neverAfter_of_none _ _ _ h1, ?_⟩
      · simp [neverAfter_cons, neverAfter_nil, isMainDraw]
      · simp [isMainDraw]
    · rw [neverAfter_append]
      refine ⟨?_, neverAfter_of_none _ _ _ h2, ?_⟩
      · simp [neverAfter_cons, neverAfter_nil, isPresent]
      · simp [isPresent]

/-! ## blendBlink: the render loop -/

theorem shadowCalls_all_loop (sc : Scene) (es : List (Option Light)) :
    (es.flatMap (shadowCallsFor sc)).all isLoopCall = true := by
  rw [List.all_eq_true]
  intro c hc
  exact isLoopCall_of_isShadowCall c (isShadowCall_of_mem_flatMap sc es c hc)

theorem afterShadowCalls_all_loop (sc : Scene) :
    (afterShadowCalls sc).all isLoopCall = true := by
  simp [afterShadowCalls, isLoopCall]

theorem renderLoop_closed (gc : List (Option Light) → Int) (sc : Scene) (frames : List Frame)
    (w : Window) (hw : w.shouldClose = true) :
    renderLoop gc sc frames w = ⟨[.windowShouldClose true], [], .ok ()⟩ := by
  cases frames <;> simp [renderLoop, bind_eq, andThen, emit, pure_eq, ret, hw]

theorem renderLoop_nil_open (gc : List (Option Light) → Int) (sc : Scene)
    (w : Window) (hw : w.shouldClose = false) :
    renderLoop gc sc [] w = ⟨[.windowShouldClose false], [], .error .outOfFrames⟩ := by
  simp [renderLoop, bind_eq, andThen, emit, pure_eq, ret, hw, stop]

theorem renderLoop_cons_ok (gc : List (Option Light) → Int) (sc : Scene) (f : Frame)
    (rest : List Frame) (w : Window) (hw : w.shouldClose = false)
    (hres : (renderFrame gc sc).res = .ok ()) :
    renderLoop gc sc (f :: rest) w =
      ⟨.windowShouldClose false ::
          ((renderFrame gc sc).trace ++ (renderLoop gc sc rest ⟨f.closeRequested⟩).trace),
        (renderLoop gc sc rest ⟨f.closeRequested⟩).defers ++ (renderFrame gc sc).defers,
        (renderLoop gc sc rest ⟨f.closeRequested⟩).res⟩ := by
  rw [renderLoop]
  simp [bind_eq, andThen, emit, hres, hw]

theorem renderLoop_cons_error (gc : List (Option Light) → Int) (sc : Scene) (f : Frame)
    (rest : List Frame) (w : Window) (hw : w.shouldClose = false) (e : Abort)
    (hres : (renderFrame gc sc).res = .error e) :
    renderLoop gc sc (f :: rest) w =
      ⟨.windowShouldClose false :: (renderFrame gc sc).trace, (renderFrame gc sc).defers,
        .error e⟩ := by
  rw [renderLoop]
  simp [bind_eq, andThen, emit, hres, hw]

theorem renderFrame_all_loop (gc : List (Option Light) → Int) (sc : Scene) :
    (renderFrame gc sc).trace.all isLoopCall = true := by
  obtain ⟨_, k, _, hf⟩ := renderFrame_cases gc sc
  have hloop := shadowCalls_all_loop sc (sc.activeLights.take k)
  have hafter := afterShadowCalls_all_loop sc
  rcases hf with ⟨htr, _⟩ | ⟨htr, _⟩
  · rw [htr]
    simp only [List.all_append, hloop, hafter, Bool.and_true]
    rfl
  · rw [htr]
    simp only [List.all_append, hloop, Bool.and_true]
    rfl

theorem renderLoop_props (gc : List (Option Light) → Int) (sc : Scene) (frames : List Frame) :
    ∀ w : Window,
      (renderLoop gc sc frames w).defers = [] ∧
      (renderLoop gc sc frames w).trace.all isLoopCall = true ∧
      (∃ rest, (renderLoop gc sc frames w).trace = .windowShouldClose w.shouldClose :: rest) ∧
      ((renderLoop gc sc frames w).res = .ok () ∨
        (renderLoop gc sc frames w).res = .error .outOfFrames ∨
        ∃ msg, (renderLoop gc sc frames w).res = .error (.panic msg)) := by
  induction frames with
  | nil =>
    intro w
    cases hw : w.shouldClose
    · rw [renderLoop_nil_open gc sc w hw]
      exact ⟨rfl, rfl, ⟨_, rfl⟩, Or.inr (Or.inl rfl)⟩
    · rw [renderLoop_closed gc sc [] w hw]
      exact ⟨rfl, rfl, ⟨_, rfl⟩, Or.inl rfl⟩
  | cons f rest ih =>
    intro w
    cases hw : w.shouldClose
    · obtain ⟨hfd, k, _, hf⟩ := renderFrame_cases gc sc
      have hfl := renderFrame_all_loop gc sc
      obtain ⟨hd, hl, _, hr⟩ := ih ⟨f.closeRequested⟩
      rcases hf with ⟨_, hres, _, _⟩ | ⟨_, ⟨msg, hres⟩, _⟩
      · rw [renderLoop_cons_ok gc sc f rest w hw hres]
        refine ⟨by simp [hd, hfd], ?_, ⟨_, rfl⟩, hr⟩
        simp only [List.all_cons, List.all_append, hfl, hl, Bool.and_true]
        rfl
      · rw [renderLoop_cons_error gc sc f rest w hw _ hres]
        refine ⟨hfd, ?_, ⟨_, rfl⟩, Or.inr (Or.inr ⟨msg, rfl⟩)⟩
        simp only [List.all_cons, hfl, Bool.and_true]
        rfl
    · rw [renderLoop_closed gc sc _ w hw]
      exact ⟨rfl, rfl, ⟨_, rfl⟩, Or.inl rfl⟩

/-! ## blendBlink: `initGraphics` -/

theorem selectMonitor_eq (n : Int) (ms : List Monitor) :
    selectMonitor n ms = ret (if n ≥ (ms.length : Int) then -1 else n,
      if 0 ≤ n ∧ n < (ms.length : Int) then ms[n.toNat]? else none) := by
  unfold selectMonitor
  by_cases h1 : n ≥ (ms.length : Int)
  · have : ¬ (n < (ms.length : Int)) := by omega
    simp [h1, this, pure_eq]
  · by_cases h2 : 0 ≤ n
    · have h3 : n < (ms.length : Int) := by omega
      have h4 : n.toNat < ms.length := by omega
      have h5 : ¬ (n < 0) := by omega
      simp [h1, h2, h3, pure_eq, bind_eq, andThen, index, h5, List.getElem?_eq_getElem h4, ret]
    · simp [h1, h2, pure_eq]

/-! ## blendBlink: the set-up -/

set_option maxHeartbeats 4000000 in
/-- The set-up of blendBlink either is aborted at its first failing step, with
no later step attempted, or succeeds in full. -/
theorem setup_cases (env : Env) :
    ((∃ e, (setup env).res = .error e ∧ (e = .exit 1 ∨ ∃ msg, e = .panic msg)) ∧
      (setup env).trace.all (fun c => !isLoopCall c && !isShaderDestroy c) = true ∧
      NeverAfter stepFailed isLoadStep (setup env).trace ∧
      (setup env).defers.all isShaderDestroy = true ∧
      ¬ (StepsSucceed env ∧ env.glfwInitErr = none ∧ env.initOpenGLErr = none ∧
          env.activeLights ≠ [])) ∨
    (StepsSucceed env ∧ env.glfwInitErr = none ∧ env.initOpenGLErr = none ∧
      env.activeLights ≠ [] ∧
      (∃ sc, (setup env).res = .ok (⟨false⟩, sc)) ∧
      (setup env).trace.all (fun c => !isLoopCall c && !stepFailed c && !isShaderDestroy c)
        = true ∧
      (setup env).trace.filterMap shaderLoadPath =
        [blenShaderPath, diffuseTexBumpedShaderPath, shadowmapTextureShaderPath,
          shadowmapShaderPath] ∧
      (setup env).defers.all isShaderDestroy = true) := by
  rcases h1 : env.glfwInitErr with _ | e
  swap
  · left
    simp [setup, initGraphics, selectMonitor_eq, loadAssets, buildScene, bind_eq, andThen, emit,
      pure_eq, ret, func, deferCall, store, goPanic, osExit, neverAfter_cons, neverAfter_nil,
      stepFailed, isLoadStep, isLoopCall, isShaderDestroy, StepsSucceed, h1]
  rcases h2 : env.createWindowErr with _ | e
  swap
  · left
    simp [setup, initGraphics, selectMonitor_eq, loadAssets, buildScene, bind_eq, andThen, emit,
      pure_eq, ret, func, deferCall, store, goPanic, osExit, neverAfter_cons, neverAfter_nil,
      stepFailed, isLoadStep, isLoopCall, isShaderDestroy, StepsSucceed, h1, h2]
  rcases h3 : env.initOpenGLErr with _ | e
  swap
  · left
    simp [setup, initGraphics, selectMonitor_eq, loadAssets, buildScene, bind_eq, andThen, emit,
      pure_eq, ret, func, deferCall, store, goPanic, osExit, neverAfter_cons, neverAfter_nil,
      stepFailed, isLoadStep, isLoopCall, isShaderDestroy, StepsSucceed, h1, h2, h3]
  rcases h4 : env.loadShaderErr blenShaderPath with _ | e
  swap
  · left
    simp [setup, initGraphics, selectMonitor_eq, loadAssets, buildScene, bind_eq, andThen, emit,
      pure_eq, ret, func, deferCall, store, goPanic, osExit, neverAfter_cons, neverAfter_nil,
      stepFailed, isLoadStep, isLoopCall, isShaderDestroy, StepsSucceed, h1, h2, h3, h4]
  rcases h5 : env.loadShaderErr diffuseTexBumpedShaderPath with _ | e
  swap
  · left
    simp [setup, initGraphics, selectMonitor_eq, loadAssets, buildScene, bind_eq, andThen, emit,
      pure_eq, ret, func, deferCall, store, goPanic, osExit, neverAfter_cons, neverAfter_nil,
      stepFailed, isLoadStep, isLoopCall, isShaderDestroy, StepsSucceed, h1, h2, h3, h4, h5]
  rcases h6 : env.loadShaderErr shadowmapTextureShaderPath with _ | e
  swap
  · left
    simp [setup, initGraphics, selectMonitor_eq, loadAssets, buildScene, bind_eq, andThen, emit,
      pure_eq, ret, func, deferCall, store, goPanic, osExit, neverAfter_cons, neverAfter_nil,
      stepFailed, isLoadStep, isLoopCall, isShaderDestroy, StepsSucceed, h1, h2, h3, h4, h5, h6]
  rcases h7 : env.loadShaderErr shadowmapShaderPath with _ | e
  swap
  · left
    simp [setup, initGraphics, selectMonitor_eq, loadAssets, buildScene, bind_eq, andThen, emit,
      pure_eq, ret, func, deferCall, store, goPanic, osExit, neverAfter_cons, neverAfter_nil,
      stepFailed, isLoadStep, isLoopCall, isShaderDestroy, StepsSucceed, h1, h2, h3, h4, h5, h6, h7]
  rcases h8 : env.loadTextureErr explosionPath with _ | e
  swap
  · left
    simp [setup, initGraphics, selectMonitor_eq, loadAssets, buildScene, bind_eq, andThen, emit,
      pure_eq, ret, func, deferCall, store, goPanic, osExit, neverAfter_cons, neverAfter_nil,
      stepFailed, isLoadStep, isLoopCall, isShaderDestroy, StepsSucceed, h1, h2, h3, h4, h5, h6, h7, h8]
  rcases h9 : env.loadTextureErr testDiffusePath with _ | e
  swap
  · left
    simp [setup, initGraphics, selectMonitor_eq, loadAssets, buildScene, bind_eq, andThen, emit,
      pure_eq, ret, func, deferCall, store, goPanic, osExit, neverAfter_cons, neverAfter_nil,
      stepFailed, isLoadStep, isLoopCall, isShaderDestroy, StepsSucceed, h1, h2, h3, h4, h5, h6, h7, h8, h9]
  rcases h10 : env.loadTextureErr testNormalsPath with _ | e
  swap
  · left
    simp [setup, initGraphics, selectMonitor_eq, loadAssets, buildScene, bind_eq, andThen, emit,
      pure_eq, ret, func, deferCall, store, goPanic, osExit, neverAfter_cons, neverAfter_nil,
      stepFailed, isLoadStep, isLoopCall, isShaderDestroy, StepsSucceed, h1, h2, h3, h4, h5, h6, h7, h8, h9, h10]
  rcases h11 : env.activeLights with _ | ⟨l, ls⟩
  · left
    simp [setup, initGraphics, selectMonitor_eq, loadAssets, buildScene, bind_eq, andThen, emit,
      pure_eq, ret, func, deferCall, store, goPanic, osExit, neverAfter_cons, neverAfter_nil,
      stepFailed, isLoadStep, isLoopCall, isShaderDestroy, StepsSucceed, h1, h2, h3, h4, h5, h6, h7, h8, h9, h10, h11]
  · right
    simp [setup, initGraphics, selectMonitor_eq, loadAssets, buildScene, bind_eq, andThen, emit,
      pure_eq, ret, func, deferCall, store, goPanic, osExit, neverAfter_cons, neverAfter_nil,
      stepFailed, isLoadStep, isLoopCall, isShaderDestroy, StepsSucceed, shaderLoadPath, h1, h2, h3, h4, h5, h6, h7, h8, h9, h10, h11]

/-! ## blendBlink: `main` -/

theorem main_eq (env : Env) (frames : List Frame) :
    main env frames =
      func (andThen (setup env)
        (fun p => renderLoop env.getActiveLightCount p.2 frames p.1)) := rfl

/-- The two ways a run of blendBlink can go: it is aborted during set-up, before
any call of the render loop, or every set-up step succeeds and the trace is the
set-up calls, then the calls of the render loop, then the deferred shader
destructions. -/
theorem main_shape (env : Env) (frames : List Frame) :
    (Aborted (main env frames).res ∧
      (main env frames).trace.all (fun c => !isLoopCall c) = true ∧
      NeverAfter stepFailed isLoadStep (main env frames).trace ∧
      ¬ (StepsSucceed env ∧ env.glfwInitErr = none ∧ env.initOpenGLErr = none ∧
          env.activeLights ≠ [])) ∨
    (StepsSucceed env ∧ env.glfwInitErr = none ∧ env.initOpenGLErr = none ∧
      env.activeLights ≠ [] ∧
      ∃ pre loop post, (main env frames).trace = pre ++ loop ++ post ∧
        pre.all (fun c => !isLoopCall c && !stepFailed c && !isShaderDestroy c) = true ∧
        pre.filterMap shaderLoadPath =
          [blenShaderPath, diffuseTexBumpedShaderPath, shadowmapTextureShaderPath,
            shadowmapShaderPath] ∧
        loop.all isLoopCall = true ∧
        (∃ rest, loop = .windowShouldClose false :: rest) ∧
        post.all isShaderDestroy = true ∧
        ((main env frames).res = .ok () ∨ (main env frames).res = .error .outOfFrames ∨
          ∃ msg, (main env frames).res = .error (.panic msg))) := by
  rcases setup_cases env with ⟨⟨e, hres, he⟩, hpre, hna, hdfs, hnot⟩ |
    ⟨hsteps, hg, ho, hne, ⟨sc, hres⟩, hpre, hloads, hdfs⟩
  · left
    have hbody : andThen (setup env)
        (fun p => renderLoop env.getActiveLightCount p.2 frames p.1) =
        ⟨(setup env).trace, (setup env).defers, .error e⟩ := by
      simp [andThen, hres]
    rw [main_eq, hbody]
    have hdl : ∀ d ∈ (setup env).defers, isLoadStep d = false ∧ isLoopCall d = false := by
      intro d hd
      have := shaderDestroy_facts d (List.all_eq_true.mp hdfs d hd)
      exact ⟨this.2.1, this.2.2.2.1⟩
    have hpl : ∀ c ∈ (setup env).trace, isLoopCall c = false := by
      intro c hc
      have := List.all_eq_true.mp hpre c hc
      simp at this
      exact this.1
    refine ⟨?_, ?_, ?_, hnot⟩
    · rcases he with rfl | ⟨msg, rfl⟩
      · exact Or.inl (by simp [func])
      · exact Or.inr ⟨msg, by simp [func]⟩
    · rcases he with rfl | ⟨msg, rfl⟩
      · simp only [func, List.all_eq_true]
        intro c hc
        simp [hpl c hc]
      · simp only [func, List.all_eq_true, List.mem_append]
        rintro c (hc | hc)
        · simp [hpl c hc]
        · simp [(hdl c hc).2]
    · rcases he with rfl | ⟨msg, rfl⟩
      · simpa [func] using hna
      · simp only [func]
        rw [neverAfter_append]
        exact ⟨hna, neverAfter_of_none_right _ _ _ (fun d hd => (hdl d hd).1),
          fun _ d hd => (hdl d hd).1⟩
  · right
    refine ⟨hsteps, hg, ho, hne, ?_⟩
    obtain ⟨hld, hll, hlh, hlr⟩ :=
      renderLoop_props env.getActiveLightCount sc frames ⟨false⟩
    have hbody : andThen (setup env)
        (fun p => renderLoop env.getActiveLightCount p.2 frames p.1) =
        ⟨(setup env).trace ++ (renderLoop env.getActiveLightCount sc frames ⟨false⟩).trace,
          (setup env).defers,
          (renderLoop env.getActiveLightCount sc frames ⟨false⟩).res⟩ := by
      simp [andThen, hres, hld]
    rw [main_eq, hbody]
    rcases hlr with hr | hr | ⟨msg, hr⟩
    · refine ⟨_, _, (setup env).defers, ?_, hpre, hloads, hll, hlh, hdfs, Or.inl ?_⟩ <;>
        simp [func, hr]
    · refine ⟨_, _, [], ?_, hpre, hloads, hll, hlh, rfl, Or.inr (Or.inl ?_)⟩ <;>
        simp [func, hr]
    · refine ⟨_, _, (setup env).defers, ?_, hpre, hloads, hll, hlh, hdfs,
        Or.inr (Or.inr ⟨msg, ?_⟩)⟩ <;>
        simp [func, hr]

/-- In a run of blendBlink no shader is loaded once the loop has started and no
call of the loop follows a shader destruction; a run that reaches the loop has
loaded each of the four shader programs exactly once. -/
theorem shaders_outside_loop (env : Env) (frames : List Frame) :
    NeverAfter isLoopCall isShaderLoad (main env frames).trace ∧
    NeverAfter isShaderDestroy isLoopCall (main env frames).trace ∧
    ((∃ c ∈ (main env frames).trace, isLoopCall c = true) →
      (main env frames).trace.filterMap shaderLoadPath =
        [blenShaderPath, diffuseTexBumpedShaderPath, shadowmapTextureShaderPath,
          shadowmapShaderPath]) := by
  rcases main_shape env frames with ⟨_, hnl, _, _⟩ |
    ⟨_, _, _, _, pre, loop, post, htr, hpre, hloads, hloop, _, hpost, _⟩
  · have hnl' : ∀ c ∈ (main env frames).trace, isLoopCall c = false := by
      intro c hc
      simpa using List.all_eq_true.mp hnl c hc
    refine ⟨neverAfter_of_none _ _ _ hnl', neverAfter_of_none_right _ _ _ hnl', ?_⟩
    rintro ⟨c, hc, hl⟩
    rw [hnl' c hc] at hl
    exact absurd hl (by simp)
  · have hpre' : ∀ c ∈ pre, isLoopCall c = false ∧ isShaderDestroy c = false := by
      intro c hc
      have := List.all_eq_true.mp hpre c hc
      simp at this
      exact ⟨this.1.1, this.2⟩
    have hloop' : ∀ c ∈ loop, isLoopCall c = true := fun c hc => List.all_eq_true.mp hloop c hc
    have hpost' : ∀ c ∈ post, isShaderDestroy c = true :=
      fun c hc => List.all_eq_true.mp hpost c hc
    rw [htr]
    refine ⟨?_, ?_, fun _ => ?_⟩
    · rw [neverAfter_append, neverAfter_append]
      refine ⟨⟨neverAfter_of_none _ _ _ (fun c hc => (hpre' c hc).1),
        neverAfter_of_none_right _ _ _ (fun c hc => (loopCall_facts c (hloop' c hc)).1),
        fun _ d hd => (loopCall_facts d (hloop' d hd)).1⟩,
        neverAfter_of_none_right _ _ _ (fun c hc => (shaderDestroy_facts c (hpost' c hc)).1),
        fun _ d hd => (shaderDestroy_facts d (hpost' d hd)).1⟩
    · rw [neverAfter_append, neverAfter_append]
      refine ⟨⟨neverAfter_of_none _ _ _ (fun c hc => (hpre' c hc).2),
        neverAfter_of_none _ _ _ (fun c hc => (loopCall_facts c (hloop' c hc)).2.2.2.1),
        ?_⟩,
        neverAfter_of_none_right _ _ _
          (fun c hc => (shaderDestroy_facts c (hpost' c hc)).2.2.2.1),
        ?_⟩
      · rintro ⟨c, hc, hd⟩
        rw [(hpre' c hc).2] at hd
        exact absurd hd (by simp)
      · intro _ d hd
        exact (shaderDestroy_facts d (hpost' d hd)).2.2.2.1
    · rw [List.filterMap_append, List.filterMap_append, hloads,
        filterMap_eq_nil_of_all _ loop (fun c hc => (loopCall_facts c (hloop' c hc)).2.2.2.2),
        filterMap_eq_nil_of_all _ post
          (fun c hc => (shaderDestroy_facts c (hpost' c hc)).2.2.2.2)]
      simp

/-- After a failed set-up step of blendBlink no later step and no call of the
render loop happens, the process is aborted, and the loop is entered only when
all eight steps succeeded. -/
theorem fail_fast (env : Env) (frames : List Frame) :
    NeverAfter stepFailed (fun c => isLoadStep c || isLoopCall c) (main env frames).trace ∧
    ((∃ c ∈ (main env frames).trace, stepFailed c = true) → Aborted (main env frames).res) ∧
    ((∃ c ∈ (main env frames).trace, isLoopCall c = true) → StepsSucceed env) ∧
    (¬ StepsSucceed env →
      Aborted (main env frames).res ∧ ∀ c ∈ (main env frames).trace, isLoopCall c = false) ∧
    (StepsSucceed env → env.glfwInitErr = none → env.initOpenGLErr = none →
      env.activeLights ≠ [] → Call.windowShouldClose false ∈ (main env frames).trace) := by
  rcases main_shape env frames with ⟨hab, hnl, hna, hnot⟩ |
    ⟨hsteps, _, _, _, pre, loop, post, htr, hpre, _, hloop, ⟨rest, hrest⟩, hpost, _⟩
  · have hnl' : ∀ c ∈ (main env frames).trace, isLoopCall c = false := by
      intro c hc
      simpa using List.all_eq_true.mp hnl c hc
    refine ⟨?_, fun _ => hab, ?_, fun _ => ⟨hab, hnl'⟩, ?_⟩
    · intro before c after ht hp d hd
      have h1 := hna before c after ht hp d hd
      have h2 := hnl' d (by simp [ht, hd])
      simp [h1, h2]
    · rintro ⟨c, hc, hl⟩
      rw [hnl' c hc] at hl
      exact absurd hl (by simp)
    · intro h1 h2 h3 h4
      exact absurd ⟨h1, h2, h3, h4⟩ hnot
  · have hns : ∀ c ∈ (main env frames).trace, stepFailed c = false := by
      intro c hc
      rw [htr, List.mem_append, List.mem_append] at hc
      rcases hc with (hc | hc) | hc
      · have := List.all_eq_true.mp hpre c hc
        simp at this
        exact this.1.2
      · exact (loopCall_facts c (List.all_eq_true.mp hloop c hc)).2.2.1
      · exact (shaderDestroy_facts c (List.all_eq_true.mp hpost c hc)).2.2.1
    refine ⟨neverAfter_of_none _ _ _ hns, ?_, fun _ => hsteps, fun h => absurd hsteps h, ?_⟩
    · rintro ⟨c, hc, hf⟩
      rw [hns c hc] at hf
      exact absurd hf (by simp)
    · intro _ _ _ _
      rw [htr, hrest]
      simp

end BlendBlink

namespace CubeBreak

/-! ## cubeBreak: the callbacks -/

theorem setShouldClose_eq (w : World) :
    setShouldClose w =
      ⟨[.setShouldClose true], [], .ok { w with mainWindow := { shouldClose := true } }⟩ := by
  simp [setShouldClose, func, bind_eq, andThen, emit, pure_eq, ret]

theorem onWindowResize_eq (w : World) (width height : Int) :
    onWindowResize w width height =
      ⟨[.changeResolution width height], [], .ok { w with resolution := (width, height) }⟩ := by
  simp [onWindowResize, func, bind_eq, andThen, emit, pure_eq, ret]

theorem toggleModel_nonempty (env : Env) (w : World) (h : w.objects ≠ []) :
    toggleModel env w = ⟨[], [], .ok { w with objects := [] }⟩ := by
  have hl : w.objects.length ≠ 0 := by simpa using h
  simp [toggleModel, func, pure_eq, ret, hl]

theorem toggleModel_empty_ok (env : Env) (w : World) (h : w.objects = [])
    (hload : env.loadShaderErr w.loads = none) :
    toggleModel env w =
      ⟨[.createCube "diffuse" w.nextPtr,
          .loadShaderProgramFromFiles diffuseShaderPath none,
          .shaderDestroy ⟨w.loads⟩], [],
        .ok { w with
          objects := [({ ptr := w.nextPtr, shaderName := "diffuse",
                         mesh := .cube (-1) (-1) (-1) 1 1 1,
                         shader := some ⟨w.loads⟩,
                         diffuseColor := some ⟨0.9, 0.05, 0.05, 1.0⟩,
                         specularColor := some ⟨1.0, 1.0, 1.0, 1.0⟩ }, true)]
          nextPtr := w.nextPtr + 1
          loads := w.loads + 1 }⟩ := by
  simp [toggleModel, func, bind_eq, andThen, emit, pure_eq, ret, h, hload, deferCall, mapSet]

theorem toggleModel_empty_fail (env : Env) (w : World) (h : w.objects = []) (e : String)
    (hload : env.loadShaderErr w.loads = some e) :
    toggleModel env w =
      ⟨[.createCube "diffuse" w.nextPtr,
          .loadShaderProgramFromFiles diffuseShaderPath (some e),
          .printf "Failed to compile and link the diffuse shader program!\n%v" [e]], [],
        .error (.exit 1)⟩ := by
  simp [toggleModel, func, bind_eq, andThen, emit, pure_eq, ret, h, hload, deferCall, osExit]

/-- With every shader load succeeding, `n` presses of the space key turn an
empty set into the empty set (`n` even) or a one-cube set (`n` odd), and a
one-cube set the other way round. -/
theorem toggles_parity (env : Env) (hload : ∀ k, env.loadShaderErr k = none) :
    ∀ (n : Nat) (w : World), (w.objects = [] ∨ HoldsOneCube w.objects) →
      ∃ w', (fireKeys env (List.replicate n Key.space) w).res = .ok w' ∧
        ((w.objects.length + n) % 2 = 0 → w'.objects = []) ∧
        ((w.objects.length + n) % 2 = 1 → HoldsOneCube w'.objects) := by
  intro n
  induction n with
  | zero =>
    intro w hw
    refine ⟨w, rfl, ?_, ?_⟩
    · intro h
      rcases hw with hw | ⟨cube, hw, _⟩
      · exact hw
      · rw [hw] at h
        simp at h
    · intro h
      rcases hw with hw | hw
      · rw [hw] at h
        simp at h
      · exact hw
  | succ n ih =>
    intro w hw
    rcases hw with hw | hw
    · have ht := toggleModel_empty_ok env w hw (hload w.loads)
      obtain ⟨w', hres, h0, h1⟩ := ih
        { w with
          objects := [({ ptr := w.nextPtr, shaderName := "diffuse",
                         mesh := .cube (-1) (-1) (-1) 1 1 1,
                         shader := some ⟨w.loads⟩,
                         diffuseColor := some ⟨0.9, 0.05, 0.05, 1.0⟩,
                         specularColor := some ⟨1.0, 1.0, 1.0, 1.0⟩ }, true)]
          nextPtr := w.nextPtr + 1
          loads := w.loads + 1 } (Or.inr ⟨_, rfl, rfl⟩)
      refine ⟨w', ?_, ?_, ?_⟩
      · simpa [List.replicate_succ, fireKeys, trigger, bind_eq, andThen, ht] using hres
      · intro h
        apply h0
        simp only [List.length_singleton]
        rw [hw] at h
        simp only [List.length_nil] at h
        omega
      · intro h
        apply h1
        simp only [List.length_singleton]
        rw [hw] at h
        simp only [List.length_nil] at h
        omega
    · obtain ⟨cube, hc, hm⟩ := hw
      have hne : w.objects ≠ [] := by rw [hc]; simp
      have ht := toggleModel_nonempty env w hne
      obtain ⟨w', hres, h0, h1⟩ := ih { w with objects := [] } (Or.inl rfl)
      refine ⟨w', ?_, ?_, ?_⟩
      · simpa [List.replicate_succ, fireKeys, trigger, bind_eq, andThen, ht] using hres
      · intro h
        apply h0
        rw [hc] at h
        simp only [List.length_singleton] at h
        simp only [List.length_nil]
        omega
      · intro h
        apply h1
        rw [hc] at h
        simp only [List.length_singleton] at h
        simp only [List.length_nil]
        omega

/-- What every callback has in common: nothing stays deferred, the close flag is
not read, and the callback returns unless it ends the process with status 1. -/
theorem toggleModel_props (env : Env) (w : World) :
    (toggleModel env w).defers = [] ∧
    (toggleModel env w).trace.all (fun c => !isShouldCloseRead c && !isCheckKeyPresses c)
      = true ∧
    ((∃ w', (toggleModel env w).res = .ok w') ∨ (toggleModel env w).res = .error (.exit 1)) := by
  by_cases h : w.objects = []
  · rcases hl : env.loadShaderErr w.loads with _ | e
    · rw [toggleModel_empty_ok env w h hl]
      exact ⟨rfl, rfl, Or.inl ⟨_, rfl⟩⟩
    · rw [toggleModel_empty_fail env w h e hl]
      exact ⟨rfl, rfl, Or.inr rfl⟩
  · rw [toggleModel_nonempty env w h]
    exact ⟨rfl, rfl, Or.inl ⟨_, rfl⟩⟩

theorem trigger_props (env : Env) (k : Key) (w : World) :
    (trigger env k w).defers = [] ∧
    (trigger env k w).trace.all (fun c => !isShouldCloseRead c && !isCheckKeyPresses c)
      = true ∧
    ((∃ w', (trigger env k w).res = .ok w') ∨ (trigger env k w).res = .error (.exit 1)) := by
  cases k with
  | escape =>
    have h : trigger env .escape w = setShouldClose w := rfl
    rw [h, setShouldClose_eq]
    exact ⟨rfl, rfl, Or.inl ⟨_, rfl⟩⟩
  | space => exact toggleModel_props env w
  | other code => exact ⟨rfl, rfl, Or.inl ⟨_, rfl⟩⟩

theorem handle_props (env : Env) (i : Input) (w : World) :
    (handle env i w).defers = [] ∧
    (handle env i w).trace.all (fun c => !isShouldCloseRead c && !isCheckKeyPresses c)
      = true ∧
    ((∃ w', (handle env i w).res = .ok w') ∨ (handle env i w).res = .error (.exit 1)) := by
  cases i with
  | key k => exact trigger_props env k w
  | close => exact ⟨rfl, rfl, Or.inl ⟨_, rfl⟩⟩
  | resize width height =>
    have h : handle env (.resize width height) w = onWindowResize w width height := rfl
    rw [h, onWindowResize_eq]
    exact ⟨rfl, rfl, Or.inl ⟨_, rfl⟩⟩

theorem fireKeys_props (env : Env) (ks : List Key) :
    ∀ w : World,
      (fireKeys env ks w).defers = [] ∧
      (fireKeys env ks w).trace.all (fun c => !isShouldCloseRead c && !isCheckKeyPresses c)
        = true ∧
      ((∃ w', (fireKeys env ks w).res = .ok w') ∨
        (fireKeys env ks w).res = .error (.exit 1)) := by
  induction ks with
  | nil => intro w; exact ⟨rfl, rfl, Or.inl ⟨_, rfl⟩⟩
  | cons k ks ih =>
    intro w
    obtain ⟨hd, ht, hr⟩ := trigger_props env k w
    rcases hr with ⟨w', hr⟩ | hr
    · obtain ⟨hd', ht', hr'⟩ := ih w'
      refine ⟨?_, ?_, ?_⟩
      · simp [fireKeys, bind_eq, andThen, hr, hd, hd']
      · simp only [fireKeys, bind_eq, andThen, hr, List.all_append, ht, ht', Bool.and_self]
      · simpa [fireKeys, bind_eq, andThen, hr] using hr'
    · refine ⟨?_, ?_, Or.inr ?_⟩
      · simp [fireKeys, bind_eq, andThen, hr, hd]
      · simp only [fireKeys, bind_eq, andThen, hr, ht]
      · simp [fireKeys, bind_eq, andThen, hr]

theorem handleAll_props (env : Env) (is : List Input) :
    ∀ w : World,
      (handleAll env is w).defers = [] ∧
      (handleAll env is w).trace.all (fun c => !isShouldCloseRead c && !isCheckKeyPresses c)
        = true ∧
      ((∃ w', (handleAll env is w).res = .ok w') ∨
        (handleAll env is w).res = .error (.exit 1)) := by
  induction is with
  | nil => intro w; exact ⟨rfl, rfl, Or.inl ⟨_, rfl⟩⟩
  | cons i is ih =>
    intro w
    obtain ⟨hd, ht, hr⟩ := handle_props env i w
    rcases hr with ⟨w', hr⟩ | hr
    · obtain ⟨hd', ht', hr'⟩ := ih w'
      refine ⟨?_, ?_, ?_⟩
      · simp [handleAll, bind_eq, andThen, hr, hd, hd']
      · simp only [handleAll, bind_eq, andThen, hr, List.all_append, ht, ht', Bool.and_self]
      · simpa [handleAll, bind_eq, andThen, hr] using hr'
    · refine ⟨?_, ?_, Or.inr ?_⟩
      · simp [handleAll, bind_eq, andThen, hr, hd]
      · simp only [handleAll, bind_eq, andThen, hr, ht]
      · simp [handleAll, bind_eq, andThen, hr]

theorem drawObjects_props (perspective view : Mat4) (objects : List (Renderable × Bool)) :
    (drawObjects perspective view objects).defers = [] ∧
    (drawObjects perspective view objects).trace.all
      (fun c => !isShouldCloseRead c && !isCheckKeyPresses c) = true ∧
    (drawObjects perspective view objects).res = .ok () ∧
    (drawObjects perspective view objects).trace =
      objects.map (fun o => Call.drawRenderable o.1 perspective view) := by
  induction objects with
  | nil => exact ⟨rfl, rfl, rfl, rfl⟩
  | cons o os ih =>
    obtain ⟨hd, ht, hr, hm⟩ := ih
    obtain ⟨object, b⟩ := o
    refine ⟨?_, ?_, ?_, ?_⟩
    · simp [drawObjects, bind_eq, andThen, emit, hd]
    · simp only [drawObjects, bind_eq, andThen, emit, List.all_append, List.all_cons,
        List.all_nil, ht, Bool.and_true]
      rfl
    · simp [drawObjects, bind_eq, andThen, emit, hr]
    · simp [drawObjects, bind_eq, andThen, emit, hm]

/-! ## cubeBreak: the render loop -/

theorem renderFrame_props (env : Env) (f : Frame) (w : World) :
    (renderFrame env f w).defers = [] ∧
    (∃ body, (renderFrame env f w).trace = .checkKeyPresses :: body ∧
      body.all (fun c => !isShouldCloseRead c && !isCheckKeyPresses c) = true) ∧
    ((∃ w', (renderFrame env f w).res = .ok w') ∨
      (renderFrame env f w).res = .error (.exit 1)) := by
  obtain ⟨hd, ht, hr⟩ := fireKeys_props env f.duringCheck w
  rcases hr with ⟨w1, hr⟩ | hr
  · obtain ⟨hdd, hdt, hdr, _⟩ := drawObjects_props
      (Mat4.perspective 60.0 w1.resolution.1 w1.resolution.2 1.0 100.0) Mat4.cameraView
      w1.objects
    obtain ⟨hhd, hht, hhr⟩ := handleAll_props env f.duringPoll w1
    have htrace : (renderFrame env f w).trace = .checkKeyPresses ::
        ((fireKeys env f.duringCheck w).trace ++
          ([.getResolution, .viewport 0 0 w1.resolution.1 w1.resolution.2,
            .clearColor 0.25 0.25 0.25 1.0, .clearColorAndDepth, .getViewMatrix] ++
          ((drawObjects (Mat4.perspective 60.0 w1.resolution.1 w1.resolution.2 1.0 100.0)
              Mat4.cameraView w1.objects).trace ++
            ([.swapBuffers, .pollEvents] ++ (handleAll env f.duringPoll w1).trace)))) := by
      simp [renderFrame, bind_eq, andThen, emit, hr, hdr]
    refine ⟨?_, ⟨_, htrace, ?_⟩, ?_⟩
    · simp [renderFrame, bind_eq, andThen, emit, hr, hdr, hd, hdd, hhd]
    · simp only [List.all_append, ht, hdt, hht, Bool.and_true, Bool.true_and]
      rfl
    · simpa [renderFrame, bind_eq, andThen, emit, hr, hdr] using hhr
  · refine ⟨?_, ⟨(fireKeys env f.duringCheck w).trace, ?_, ht⟩, Or.inr ?_⟩
    · simp [renderFrame, bind_eq, andThen, emit, hr, hd]
    · simp [renderFrame, bind_eq, andThen, emit, hr]
    · simp [renderFrame, bind_eq, andThen, emit, hr]

theorem cubeLoop_closed (env : Env) (frames : List Frame) (w : World)
    (hw : w.mainWindow.shouldClose = true) :
    renderLoop env frames w = ⟨[.windowShouldClose true], [], .ok w⟩ := by
  cases frames <;> simp [renderLoop, bind_eq, andThen, emit, pure_eq, ret, hw]

theorem cubeLoop_nil_open (env : Env) (w : World)
    (hw : w.mainWindow.shouldClose = false) :
    renderLoop env [] w = ⟨[.windowShouldClose false], [], .error .outOfFrames⟩ := by
  simp [renderLoop, bind_eq, andThen, emit, pure_eq, ret, hw, stop]

theorem cubeLoop_cons_ok (env : Env) (f : Frame) (rest : List Frame) (w w' : World)
    (hw : w.mainWindow.shouldClose = false) (hres : (renderFrame env f w).res = .ok w') :
    renderLoop env (f :: rest) w =
      ⟨.windowShouldClose false ::
          ((renderFrame env f w).trace ++ (renderLoop env rest w').trace),
        (renderLoop env rest w').defers ++ (renderFrame env f w).defers,
        (renderLoop env rest w').res⟩ := by
  rw [renderLoop]
  simp [bind_eq, andThen, emit, hres, hw]

theorem cubeLoop_cons_error (env : Env) (f : Frame) (rest : List Frame) (w : World)
    (hw : w.mainWindow.shouldClose = false) (e : Abort)
    (hres : (renderFrame env f w).res = .error e) :
    renderLoop env (f :: rest) w =
      ⟨.windowShouldClose false :: (renderFrame env f w).trace, (renderFrame env f w).defers,
        .error e⟩ := by
  rw [renderLoop]
  simp [bind_eq, andThen, emit, hres, hw]

/-- The trace of the render loop is a sequence of iterations, each opened by one
read of the close flag, followed by the read that ended the loop (or by the
point where the frame schedule or the process ended). -/
theorem cubeLoop_iterations (env : Env) (frames : List Frame) :
    ∀ w : World,
      (renderLoop env frames w).defers = [] ∧
      ∃ (iters : List (List Call)) (tail : List Call),
        (renderLoop env frames w).trace = iters.flatten ++ tail ∧
        (∀ it ∈ iters, IsIteration it) ∧
        ((tail = [.windowShouldClose true] ∧
            ∃ w', (renderLoop env frames w).res = .ok w' ∧ w'.mainWindow.shouldClose = true) ∨
          (tail = [.windowShouldClose false] ∧
            (renderLoop env frames w).res = .error .outOfFrames) ∨
          (tail = [] ∧ (renderLoop env frames w).res = .error (.exit 1))) := by
  induction frames with
  | nil =>
    intro w
    cases hw : w.mainWindow.shouldClose
    · rw [cubeLoop_nil_open env w hw]
      exact ⟨rfl, [], _, rfl, by simp, Or.inr (Or.inl ⟨rfl, rfl⟩)⟩
    · rw [cubeLoop_closed env [] w hw]
      exact ⟨rfl, [], _, rfl, by simp, Or.inl ⟨rfl, w, rfl, hw⟩⟩
  | cons f rest ih =>
    intro w
    cases hw : w.mainWindow.shouldClose
    · obtain ⟨hfd, ⟨body, hft, hfb⟩, hfr⟩ := renderFrame_props env f w
      have hit : IsIteration (.windowShouldClose false :: (renderFrame env f w).trace) := by
        refine ⟨body, by rw [hft], ?_⟩
        intro c hc
        have := List.all_eq_true.mp hfb c hc
        simpa using this
      rcases hfr with ⟨w', hres⟩ | hres
      · obtain ⟨hd, iters, tail, htr, hits, htail⟩ := ih w'
        rw [cubeLoop_cons_ok env f rest w w' hw hres]
        refine ⟨by simp [hd, hfd],
          (.windowShouldClose false :: (renderFrame env f w).trace) :: iters, tail, ?_, ?_,
          htail⟩
        · simp [htr]
        · intro it hmem
          rcases List.mem_cons.mp hmem with rfl | hmem
          · exact hit
          · exact hits it hmem
      · rw [cubeLoop_cons_error env f rest w hw _ hres]
        refine ⟨hfd, [.windowShouldClose false :: (renderFrame env f w).trace], [], by simp,
          ?_, Or.inr (Or.inr ⟨rfl, rfl⟩)⟩
        intro it hmem
        rw [List.mem_singleton] at hmem
        rw [hmem]
        exact hit
    · rw [cubeLoop_closed env _ w hw]
      exact ⟨rfl, [], _, rfl, by simp, Or.inl ⟨rfl, w, rfl, hw⟩⟩

/-! ## cubeBreak: the set-up and `main` -/

/-- The set-up of cubeBreak makes no call of the loop and loads no shader; it is
either aborted by a panic or leaves an open window and an empty object set. -/
theorem cubeSetup_cases (env : Env) :
    (setup env).trace.all
      (fun c => !isLoopCall c && !isShaderLoad c && !isShaderDestroy c) = true ∧
    (setup env).defers.all (fun c => !isLoopCall c && !isShaderLoad c) = true ∧
    ((∃ msg, (setup env).res = .error (.panic msg)) ∨
      (∃ w, (setup env).res = .ok w ∧ w.mainWindow.shouldClose = false ∧ w.objects = [] ∧
        (setup env).defers = [.rendererDestroy])) := by
  rcases h1 : env.glfwInitErr with _ | e
  swap
  · simp [setup, initGraphics, bind_eq, andThen, emit, pure_eq, ret, func, deferCall, store,
      goPanic, isLoopCall, isShaderLoad, isShaderDestroy, h1]
  rcases h2 : env.createWindowErr with _ | e
  swap
  · simp [setup, initGraphics, bind_eq, andThen, emit, pure_eq, ret, func, deferCall, store,
      goPanic, isLoopCall, isShaderLoad, isShaderDestroy, h1, h2]
  rcases h3 : env.initOpenGLErr with _ | e
  swap
  · simp [setup, initGraphics, bind_eq, andThen, emit, pure_eq, ret, func, deferCall, store,
      goPanic, isLoopCall, isShaderLoad, isShaderDestroy, h1, h2, h3]
  rcases h4 : env.activeLights with _ | ⟨l, ls⟩
  · simp [setup, initGraphics, bind_eq, andThen, emit, pure_eq, ret, func, deferCall, store,
      goPanic, isLoopCall, isShaderLoad, isShaderDestroy, h1, h2, h3, h4]
  · simp [setup, initGraphics, bind_eq, andThen, emit, pure_eq, ret, func, deferCall, store,
      goPanic, isLoopCall, isShaderLoad, isShaderDestroy, h1, h2, h3, h4]

theorem cubeMain_eq (env : Env) (frames : List Frame) :
    main env frames = func (andThen (setup env) (fun w => renderLoop env frames w)) := rfl

/-- Once a read of the close flag has returned `true`, a run of cubeBreak makes
no further call of the loop, and `main` returns normally. -/
theorem closed_read_ends_main (env : Env) (frames : List Frame) :
    NeverAfter isClosedRead isLoopCall (main env frames).trace ∧
    ((∃ c ∈ (main env frames).trace, isClosedRead c = true) →
      ∃ w, (main env frames).res = .ok w ∧ w.mainWindow.shouldClose = true) := by
  obtain ⟨hpre, hdfs, hres⟩ := cubeSetup_cases env
  have hpre' : ∀ c ∈ (setup env).trace, isClosedRead c = false := by
    intro c hc
    have := List.all_eq_true.mp hpre c hc
    simp only [Bool.and_eq_true, Bool.not_eq_true'] at this
    exact not_closedRead_of_not_loopCall c this.1.1
  have hdfs' : ∀ c ∈ (setup env).defers, isClosedRead c = false ∧ isLoopCall c = false := by
    intro c hc
    have := List.all_eq_true.mp hdfs c hc
    simp only [Bool.and_eq_true, Bool.not_eq_true'] at this
    exact ⟨not_closedRead_of_not_loopCall c this.1, this.1⟩
  rcases hres with ⟨msg, hres⟩ | ⟨w0, hres, _, _, hdef⟩
  · have hbody : andThen (setup env) (fun w => renderLoop env frames w) =
        ⟨(setup env).trace, (setup env).defers, .error (.panic msg)⟩ := by
      simp [andThen, hres]
    rw [cubeMain_eq, hbody]
    have hall : ∀ c ∈ (setup env).trace ++ (setup env).defers, isClosedRead c = false := by
      intro c hc
      rcases List.mem_append.mp hc with hc | hc
      · exact hpre' c hc
      · exact (hdfs' c hc).1
    refine ⟨?_, ?_⟩
    · simpa [func] using neverAfter_of_none _ _ _ hall
    · rintro ⟨c, hc, hcl⟩
      simp only [func] at hc
      rw [hall c hc] at hcl
      exact absurd hcl (by simp)
  · obtain ⟨hld, iters, tail, htr, hits, htail⟩ := cubeLoop_iterations env frames w0
    have hbody : andThen (setup env) (fun w => renderLoop env frames w) =
        ⟨(setup env).trace ++ (iters.flatten ++ tail), [.rendererDestroy],
          (renderLoop env frames w0).res⟩ := by
      simp [andThen, hres, hld, hdef, htr]
    have hiters : ∀ c ∈ iters.flatten, isClosedRead c = false := by
      intro c hc
      rw [List.mem_flatten] at hc
      obtain ⟨it, hit, hc⟩ := hc
      obtain ⟨body, rfl, hbody⟩ := hits it hit
      rcases List.mem_cons.mp hc with rfl | hc
      · rfl
      · rcases List.mem_cons.mp hc with rfl | hc
        · rfl
        · exact not_closedRead_of_not_read c (hbody c hc).1
    rw [cubeMain_eq, hbody]
    rcases htail with ⟨rfl, w', hr, hw'⟩ | ⟨rfl, hr⟩ | ⟨rfl, hr⟩
    · refine ⟨?_, fun _ => ⟨w', by simp [func, hr], hw'⟩⟩
      simp only [func, hr]
      rw [neverAfter_append, neverAfter_append, neverAfter_append]
      refine ⟨⟨neverAfter_of_none _ _ _ hpre',
          ⟨neverAfter_of_none _ _ _ hiters, by simp [neverAfter_cons, neverAfter_nil], ?_⟩, ?_⟩,
        by simp [neverAfter_cons, neverAfter_nil], ?_⟩
      · rintro ⟨c, hc, hcl⟩
        rw [hiters c hc] at hcl
        exact absurd hcl (by simp)
      · rintro ⟨c, hc, hcl⟩
        rw [hpre' c hc] at hcl
        exact absurd hcl (by simp)
      · intro _ d hd
        rw [List.mem_singleton] at hd
        rw [hd]
        rfl
    · have hall : ∀ c ∈ (setup env).trace ++ (iters.flatten ++ [Call.windowShouldClose false]),
          isClosedRead c = false := by
        intro c hc
        rcases List.mem_append.mp hc with hc | hc
        · exact hpre' c hc
        · rcases List.mem_append.mp hc with hc | hc
          · exact hiters c hc
          · rw [List.mem_singleton] at hc
            rw [hc]
            rfl
      refine ⟨?_, ?_⟩
      · simpa [func, hr] using neverAfter_of_none _ _ _ hall
      · rintro ⟨c, hc, hcl⟩
        simp only [func, hr] at hc
        rw [hall c hc] at hcl
        exact absurd hcl (by simp)
    · have hall : ∀ c ∈ (setup env).trace ++ (iters.flatten ++ []),
          isClosedRead c = false := by
        intro c hc
        rcases List.mem_append.mp hc with hc | hc
        · exact hpre' c hc
        · rw [List.append_nil] at hc
          exact hiters c hc
      refine ⟨?_, ?_⟩
      · simpa [func, hr] using neverAfter_of_none _ _ _ hall
      · rintro ⟨c, hc, hcl⟩
        simp only [func, hr] at hc
        rw [hall c hc] at hcl
        exact absurd hcl (by simp)

end CubeBreak

namespace BlendBlink

/-! ## blendBlink: the scene `main` builds -/

theorem flatMap_take_of_rest_nil (sc : Scene) (lights : List (Option Light)) (k : Nat)
    (h : ∀ e ∈ lights.drop k, e = none) :
    (lights.take k).flatMap (shadowCallsFor sc) = lights.flatMap (shadowCallsFor sc) := by
  conv_rhs => rw [← List.take_append_drop k lights]
  rw [List.flatMap_append]
  have : (lights.drop k).flatMap (shadowCallsFor sc) = [] := by
    rw [List.flatMap_eq_nil_iff]
    intro e he
    rw [h e he]
    rfl
  rw [this, List.append_nil]

theorem filterMap_take_of_rest_nil (lights : List (Option Light)) (k : Nat)
    (h : ∀ e ∈ lights.drop k, e = none) :
    (lights.take k).filterMap (fun e => e.filter (fun l => l.shadowMap.isSome)) =
      lights.filterMap (fun e => e.filter (fun l => l.shadowMap.isSome)) := by
  conv_rhs => rw [← List.take_append_drop k lights]
  rw [List.filterMap_append]
  have : (lights.drop k).filterMap (fun e => e.filter (fun l => l.shadowMap.isSome)) = [] := by
    apply List.filterMap_eq_nil_iff.mpr
    intro e he
    rw [h e he]
    rfl
  rw [this, List.append_nil]

theorem shadowCallsFor_infix (sc : Scene) (lights : List (Option Light)) (l : Light)
    (hl : some l ∈ lights) :
    shadowCallsFor sc (some l) <:+: lights.flatMap (shadowCallsFor sc) := by
  obtain ⟨a, b, rfl⟩ := List.append_of_mem hl
  rw [List.flatMap_append, List.flatMap_cons]
  exact ⟨a.flatMap (shadowCallsFor sc), b.flatMap (shadowCallsFor sc), by simp⟩

theorem filterMap_filter_eq (lights : List (Option Light)) (p : Light → Bool) :
    lights.filterMap (fun e => e.filter p) = (lights.filterMap id).filter p := by
  induction lights with
  | nil => rfl
  | cons e es ih =>
    cases e with
    | none => simpa using ih
    | some x =>
      have h1 : List.filterMap (fun e => Option.filter p e) (some x :: es) =
          (if p x = true then [x] else []) ++
            List.filterMap (fun e => Option.filter p e) es := by
        cases hp : p x <;> simp [List.filterMap_cons, Option.filter, hp]
      rw [h1, ih]
      cases hp : p x <;> simp [hp]

theorem count_enabled_eq_one (lights : List (Option Light))
    (hd : (lights.filterMap id).Nodup) (l : Light) (hl : some l ∈ lights)
    (hs : l.shadowMap.isSome = true) :
    (lights.filterMap (fun e => e.filter (fun l => l.shadowMap.isSome))).count l = 1 := by
  rw [filterMap_filter_eq]
  apply List.count_eq_one_of_mem (hd.filter _)
  rw [List.mem_filter]
  refine ⟨?_, hs⟩
  rw [List.mem_filterMap]
  exact ⟨some l, hl, rfl⟩

/-- A scene that `main` has built comes from `buildScene`. -/
theorem builtScene_some (env : Env) (sc : Scene) (h : builtScene env = some sc) :
    ∃ shaders textures, (buildScene env shaders textures).res = .ok sc := by
  unfold builtScene setup at h
  rcases hi : (initGraphics env "go" windowWidth windowHeight).res with e | w
  · simp [bind_eq, andThen, hi] at h
  · rcases hl : (loadAssets env).res with e | ⟨shaders, textures⟩
    · simp [bind_eq, andThen, hi, hl, emit] at h
    · rcases hb : (buildScene env shaders textures).res with e | sc'
      · simp [bind_eq, andThen, hi, hl, hb, emit] at h
      · simp [bind_eq, andThen, hi, hl, hb, emit, pure_eq, ret] at h
        exact ⟨shaders, textures, by rw [hb, h]⟩

/-- The scene `buildScene` returns holds main's light, with its shadow map, in
slot 0 of `ActiveLights`; the other slots are as the engine left them. -/
theorem buildScene_lights (env : Env) (shaders : Shader × Shader × Shader × Shader)
    (textures : Texture × Texture × Texture) (sc : Scene)
    (h : (buildScene env shaders textures).res = .ok sc) :
    ∃ l0 ls light, env.activeLights = l0 :: ls ∧ sc.activeLights = some light :: ls ∧
      light.shadowMap = some env.shadowMap := by
  obtain ⟨s0, s1, s2, s3⟩ := shaders
  obtain ⟨t0, t1, t2⟩ := textures
  rcases ha : env.activeLights with _ | ⟨l0, ls⟩
  · simp [buildScene, bind_eq, andThen, emit, store, goPanic, ha] at h
  · simp [buildScene, bind_eq, andThen, emit, store, ret, pure_eq, ha] at h
    exact ⟨l0, ls, _, rfl, by rw [← h], rfl⟩

theorem leadingLights_cons_nil (light : Light) (ls : List (Option Light))
    (hnil : ∀ e ∈ ls, e = none) : leadingLights (some light :: ls) = 1 := by
  unfold leadingLights
  cases ls with
  | nil => rfl
  | cons e es =>
    have := hnil e (List.mem_cons_self _ _)
    subst this
    rfl

/-- With an engine that hands out an all-nil light array and counts the leading
lights, every scene `main` builds meets the conditions of the shadow-pass
theorem: the count is exactly the number of configured lights. -/
theorem builtScene_counts (env : Env) (sc : Scene) (h : builtScene env = some sc)
    (hnil : ∀ e ∈ env.activeLights, e = none)
    (hgc : env.getActiveLightCount = leadingLights) :
    CountsConfigured sc.activeLights (env.getActiveLightCount sc.activeLights) ∧
    (sc.activeLights.filterMap id).Nodup := by
  obtain ⟨shaders, textures, hb⟩ := builtScene_some env sc h
  obtain ⟨l0, ls, light, hlights, hsc, _⟩ := buildScene_lights env shaders textures sc hb
  have hls : ∀ e ∈ ls, e = none := by
    intro e he
    exact hnil e (by rw [hlights]; exact List.mem_cons_of_mem _ he)
  have hfm : ls.filterMap id = [] := by
    apply List.filterMap_eq_nil_iff.mpr
    intro e he
    rw [hls e he]
    rfl
  rw [hgc, hsc, leadingLights_cons_nil light ls hls]
  refine ⟨⟨?_, ?_⟩, ?_⟩
  · intro i hi
    have : i = 0 := by omega
    subst this
    exact ⟨light, by simp⟩
  · simpa using hls
  · simp [hfm]

end BlendBlink

/-! # The claims -/

theorem packedScene_packed :
    BlendBlink.Packed BlendBlink.packedScene.activeLights
      (BlendBlink.leadingLights BlendBlink.packedScene.activeLights) := by
  intro i hi
  have h2 : BlendBlink.leadingLights BlendBlink.packedScene.activeLights = 2 := by
    simp [BlendBlink.leadingLights, BlendBlink.packedScene, List.takeWhile]
  rw [h2] at hi
  have : i = 0 ∨ i = 1 := by omega
  rcases this with rfl | rfl
  · exact ⟨_, rfl⟩
  · exact ⟨_, rfl⟩

/-- C1: when the diffuse shader loads without error, `toggleModel` turns an empty
object set into a set holding exactly one renderable, the cube it has just
created, and turns any non-empty set into the empty set; so `n` presses of the
space key, starting from an empty set, leave the set empty when `n` is even and
holding exactly one cube when `n` is odd. -/
theorem C1_toggle_alternates (env : CubeBreak.Env)
    (hload : ∀ k, env.loadShaderErr k = none) :
    (∀ w : CubeBreak.World, w.objects = [] →
      ∃ w', (CubeBreak.toggleModel env w).res = .ok w' ∧
        CubeBreak.HoldsOneCube w'.objects ∧
        (∃ cube, w'.objects = [(cube, true)] ∧ cube.ptr = w.nextPtr) ∧
        Call.createCube "diffuse" w.nextPtr ∈ (CubeBreak.toggleModel env w).trace) ∧
    (∀ w : CubeBreak.World, w.objects ≠ [] →
      ∃ w', (CubeBreak.toggleModel env w).res = .ok w' ∧ w'.objects = []) ∧
    (∀ (n : Nat) (w : CubeBreak.World), w.objects = [] →
      ∃ w', (CubeBreak.fireKeys env (List.replicate n Key.space) w).res = .ok w' ∧
        (n % 2 = 0 → w'.objects = []) ∧
        (n % 2 = 1 → CubeBreak.HoldsOneCube w'.objects)) := by
  refine ⟨?_, ?_, ?_⟩
  · intro w hw
    rw [CubeBreak.toggleModel_empty_ok env w hw (hload w.loads)]
    exact ⟨_, rfl, ⟨_, rfl, rfl⟩, ⟨_, rfl, rfl⟩, by simp⟩
  · intro w hw
    rw [CubeBreak.toggleModel_nonempty env w hw]
    exact ⟨_, rfl, rfl⟩
  · intro n w hw
    obtain ⟨w', hres, h0, h1⟩ := CubeBreak.toggles_parity env hload n w (Or.inl hw)
    refine ⟨w', hres, ?_, ?_⟩
    · intro h
      apply h0
      rw [hw]
      simpa using h
    · intro h
      apply h1
      rw [hw]
      simpa using h

/-- C1 witness: in a run where every load succeeds, three presses of the space
key on the initial empty set leave exactly one cube. -/
theorem C1_toggle_alternates_witness :
    (∀ k, CubeBreak.quietEnv.loadShaderErr k = none) ∧
    ∃ w', (CubeBreak.fireKeys CubeBreak.quietEnv (List.replicate 3 Key.space) {}).res
        = .ok w' ∧
      CubeBreak.HoldsOneCube w'.objects := by
  have hq : ∀ k, CubeBreak.quietEnv.loadShaderErr k = none := fun _ => rfl
  obtain ⟨w', hres, _, h1⟩ := (C1_toggle_alternates CubeBreak.quietEnv hq).2.2 3 {} rfl
  exact ⟨hq, w', hres, h1 (by decide)⟩

/-- C2: in every iteration of blendBlink's render loop, whenever the light count
the engine returns counts exactly the configured lights of `ActiveLights` (they
sit at the front of the array, as the engine keeps them) and these lights are
distinct: the shadow pass ends normally; each configured light whose ShadowMap
is non-nil is passed to `EnableShadowMappingLight` exactly once, and that call
is followed at once by the shadow draws of `testCube` and `floorPlane` with the
light's shadow projection and view; no light whose ShadowMap is nil is passed to
`EnableShadowMappingLight`; and the shadow pass makes no other call than
`StartShadowMapping`, `GetActiveLightCount`, these per-light calls in index
order, and `EndShadowMapping`. -/
theorem C2_shadow_pass_each_light_once (gc : List (Option Light) → Int)
    (sc : BlendBlink.Scene)
    (hcount : BlendBlink.CountsConfigured sc.activeLights (gc sc.activeLights))
    (hdistinct : (sc.activeLights.filterMap id).Nodup) :
    (BlendBlink.shadowPass gc sc).res = .ok () ∧
    (∀ (l : Light) (shadowMap : ShadowMap), some l ∈ sc.activeLights →
      l.shadowMap = some shadowMap →
      (enabledLights (BlendBlink.shadowPass gc sc).trace).count l = 1 ∧
      [.enableShadowMappingLight l,
        .drawRenderableWithShader sc.testCube sc.shadowmapShader
          shadowMap.projection shadowMap.view,
        .drawRenderableWithShader sc.floorPlane sc.shadowmapShader
          shadowMap.projection shadowMap.view] <:+: (BlendBlink.shadowPass gc sc).trace) ∧
    (∀ l ∈ enabledLights (BlendBlink.shadowPass gc sc).trace,
      some l ∈ sc.activeLights ∧ l.shadowMap ≠ none) ∧
    (BlendBlink.shadowPass gc sc).trace =
      [.startShadowMapping, .getActiveLightCount (gc sc.activeLights)] ++
        sc.activeLights.flatMap (BlendBlink.shadowCallsFor sc) ++ [.endShadowMapping] := by
  obtain ⟨hpacked, hrest⟩ := hcount
  obtain ⟨_, k, _, hk⟩ := BlendBlink.shadowPass_cases gc sc
  rcases hk with ⟨htr, hres, hkn, _⟩ | ⟨_, _, hnot⟩
  swap
  · exact absurd hpacked hnot
  subst hkn
  rw [BlendBlink.flatMap_take_of_rest_nil sc _ _ hrest] at htr
  have hen : enabledLights (BlendBlink.shadowPass gc sc).trace =
      sc.activeLights.filterMap (fun e => e.filter (fun l => l.shadowMap.isSome)) := by
    rw [htr, BlendBlink.enabledLights_append, BlendBlink.enabledLights_append,
      BlendBlink.enabledLights_flatMap]
    simp [enabledLights]
  refine ⟨hres, ?_, ?_, htr⟩
  · intro l shadowMap hl hsm
    refine ⟨?_, ?_⟩
    · rw [hen]
      exact BlendBlink.count_enabled_eq_one _ hdistinct l hl (by simp [hsm])
    · have hinf := BlendBlink.shadowCallsFor_infix sc _ l hl
      simp only [BlendBlink.shadowCallsFor, hsm] at hinf
      rw [htr]
      obtain ⟨a, b, hab⟩ := hinf
      exact ⟨[.startShadowMapping, .getActiveLightCount (gc sc.activeLights)] ++ a,
        b ++ [.endShadowMapping], by simp [← hab]⟩
  · intro l hl
    rw [hen, List.mem_filterMap] at hl
    obtain ⟨e, he, hf⟩ := hl
    cases e with
    | none => simp [Option.filter] at hf
    | some x =>
      cases hx : x.shadowMap.isSome
      · simp [Option.filter, hx] at hf
      · simp [Option.filter, hx] at hf
        subst hf
        refine ⟨he, ?_⟩
        intro hnone
        simp [hnone] at hx

/-- C2 witness: in the run where every step succeeds, on an engine with four
light slots, the scene `main` builds meets both conditions, and each frame's
shadow pass enables exactly one light, the one `main` configured. -/
theorem C2_shadow_pass_each_light_once_witness :
    ∃ sc, BlendBlink.builtScene BlendBlink.quietEnv = some sc ∧
      BlendBlink.CountsConfigured sc.activeLights
        (BlendBlink.quietEnv.getActiveLightCount sc.activeLights) ∧
      (sc.activeLights.filterMap id).Nodup ∧
      (BlendBlink.shadowPass BlendBlink.quietEnv.getActiveLightCount sc).res = .ok () ∧
      (enabledLights
        (BlendBlink.shadowPass BlendBlink.quietEnv.getActiveLightCount sc).trace).length = 1 := by
  obtain ⟨sc, hsc⟩ : ∃ sc, BlendBlink.builtScene BlendBlink.quietEnv = some sc := ⟨_, rfl⟩
  have hq := BlendBlink.builtScene_counts BlendBlink.quietEnv sc hsc
    (by simp [BlendBlink.quietEnv]) rfl
  have h := C2_shadow_pass_each_light_once BlendBlink.quietEnv.getActiveLightCount sc hq.1 hq.2
  refine ⟨sc, hsc, hq.1, hq.2, h.1, ?_⟩
  obtain ⟨shaders, textures, hb⟩ := BlendBlink.builtScene_some BlendBlink.quietEnv sc hsc
  obtain ⟨l0, ls, light, hlights, hlsc, hsm⟩ :=
    BlendBlink.buildScene_lights BlendBlink.quietEnv shaders textures sc hb
  have hmem : some light ∈ sc.activeLights := by rw [hlsc]; exact List.mem_cons_self _ _
  have hlen : sc.activeLights.flatMap (BlendBlink.shadowCallsFor sc) =
      BlendBlink.shadowCallsFor sc (some light) := by
    have hls : ls = [none, none, none] := by
      have := hlights
      simp [BlendBlink.quietEnv] at this
      exact this.2.symm
    rw [hlsc, hls]
    simp [BlendBlink.shadowCallsFor]
  rw [h.2.2.2, hlen]
  simp [BlendBlink.shadowCallsFor, hsm, enabledLights]

/-- C3: `initGraphics` of blendBlink selects monitor `ms[n]` when
`0 <= n < len(ms)` and no monitor otherwise; the selection never panics on an
index out of range, and the one `CreateWindow` call made (when `glfw.Init`
succeeded) carries exactly that monitor. -/
theorem C3_monitor_selection (env : BlendBlink.Env) (title : String) (w h : Int) :
    BlendBlink.selectMonitor env.flagDesktopNumber env.monitors =
      ret (if env.flagDesktopNumber ≥ (env.monitors.length : Int) then -1
            else env.flagDesktopNumber,
          if 0 ≤ env.flagDesktopNumber ∧ env.flagDesktopNumber < (env.monitors.length : Int)
            then env.monitors[env.flagDesktopNumber.toNat]? else none) ∧
    (0 ≤ env.flagDesktopNumber ∧ env.flagDesktopNumber < (env.monitors.length : Int) →
      (env.monitors[env.flagDesktopNumber.toNat]?).isSome = true) ∧
    (BlendBlink.initGraphics env title w h).trace.filter isCreateWindow =
      (if env.glfwInitErr = none then
        [.createWindow w h title
          (if 0 ≤ env.flagDesktopNumber ∧ env.flagDesktopNumber < (env.monitors.length : Int)
            then env.monitors[env.flagDesktopNumber.toNat]? else none)
          env.createWindowErr]
      else []) := by
  have hsel := BlendBlink.selectMonitor_eq env.flagDesktopNumber env.monitors
  refine ⟨hsel, ?_, ?_⟩
  · rintro ⟨h0, h1⟩
    have : env.flagDesktopNumber.toNat < env.monitors.length := by omega
    simp [this]
  · unfold BlendBlink.initGraphics
    simp only [hsel]
    cases h1 : env.glfwInitErr <;> cases h2 : env.createWindowErr <;>
      cases h3 : env.initOpenGLErr <;>
      simp [bind_eq, pure_eq, andThen, ret, emit, func, goPanic, isCreateWindow]

/-- C4: in blendBlink, when window creation, a shader load or a texture load
returns an error, no later such step and no call of the render loop follows it
and the process is aborted (panic or exit status 1); calls of the render loop
occur only in runs in which all eight steps succeeded, and a run in which one of
them fails is aborted without any call of the loop; when nothing fails the loop
is entered. -/
theorem C4_fail_fast (env : BlendBlink.Env) (frames : List BlendBlink.Frame) :
    NeverAfter stepFailed (fun c => isLoadStep c || isLoopCall c)
      (BlendBlink.main env frames).trace ∧
    ((∃ c ∈ (BlendBlink.main env frames).trace, stepFailed c = true) →
      BlendBlink.Aborted (BlendBlink.main env frames).res) ∧
    ((∃ c ∈ (BlendBlink.main env frames).trace, isLoopCall c = true) →
      BlendBlink.StepsSucceed env) ∧
    (¬ BlendBlink.StepsSucceed env →
      BlendBlink.Aborted (BlendBlink.main env frames).res ∧
      ∀ c ∈ (BlendBlink.main env frames).trace, isLoopCall c = false) ∧
    (BlendBlink.StepsSucceed env → env.glfwInitErr = none → env.initOpenGLErr = none →
      env.activeLights ≠ [] →
      Call.windowShouldClose false ∈ (BlendBlink.main env frames).trace) :=
  BlendBlink.fail_fast env frames

/-- C4 witness: when only the last texture fails to load, the run is aborted and
makes no call of the render loop. -/
theorem C4_fail_fast_witness :
    ¬ BlendBlink.StepsSucceed BlendBlink.missingNormalsEnv ∧
    BlendBlink.Aborted (BlendBlink.main BlendBlink.missingNormalsEnv [⟨false⟩, ⟨true⟩]).res ∧
    ∀ c ∈ (BlendBlink.main BlendBlink.missingNormalsEnv [⟨false⟩, ⟨true⟩]).trace,
      isLoopCall c = false := by
  have h : ¬ BlendBlink.StepsSucceed BlendBlink.missingNormalsEnv := by
    intro hs
    have := hs.2.2.2.2.2.2.2
    simp [BlendBlink.missingNormalsEnv] at this
  exact ⟨h, (C4_fail_fast BlendBlink.missingNormalsEnv [⟨false⟩, ⟨true⟩]).2.2.2.1 h⟩

/-- C5: cubeBreak does not keep its shader outside the render loop.  In the run
where the space key is pressed in the first frame and escape in the second,
which returns normally, the diffuse shader is loaded after calls of the render
loop have already happened, and calls of the render loop follow its
destruction; and in the run where only escape is pressed no shader is created
at all. -/
theorem C5_shader_loaded_in_loop :
    (∃ w, (CubeBreak.main CubeBreak.quietEnv
        [⟨[], [.key .space]⟩, ⟨[], [.key .escape]⟩]).res = .ok w) ∧
    ¬ NeverAfter isLoopCall isShaderLoad
      (CubeBreak.main CubeBreak.quietEnv
        [⟨[], [.key .space]⟩, ⟨[], [.key .escape]⟩]).trace ∧
    ¬ NeverAfter isShaderDestroy isLoopCall
      (CubeBreak.main CubeBreak.quietEnv
        [⟨[], [.key .space]⟩, ⟨[], [.key .escape]⟩]).trace ∧
    (∃ w, (CubeBreak.main CubeBreak.quietEnv [⟨[], [.key .escape]⟩]).res = .ok w) ∧
    (CubeBreak.main CubeBreak.quietEnv [⟨[], [.key .escape]⟩]).trace.filter isShaderLoad
      = [] := by
  refine ⟨⟨_, rfl⟩, ?_, ?_, ⟨_, rfl⟩, rfl⟩
  · rw [neverAfter_iff]
    decide
  · rw [neverAfter_iff]
    decide

/-- C6: in cubeBreak `setShouldClose` sets the window's should-close flag and
leaves the object set as it was.  The trace of the render loop is a sequence of
iterations, each consisting of one read of the flag (which returned `false`),
then `CheckKeyPresses`, then the rest of the body (draw calls included) in which
the flag is not read again; it ends with the read that returned `true`, or where
the frame schedule or the process ended.  After a read that returned `true` no
call of the loop follows, and `main` returns normally. -/
theorem C6_close_flag (env : CubeBreak.Env) (frames : List CubeBreak.Frame)
    (w : CubeBreak.World) :
    (∃ w', CubeBreak.setShouldClose w = ⟨[.setShouldClose true], [], .ok w'⟩ ∧
      w'.mainWindow.shouldClose = true ∧ w'.objects = w.objects) ∧
    (∃ (iters : List (List Call)) (tail : List Call),
      (CubeBreak.renderLoop env frames w).trace = iters.flatten ++ tail ∧
      (∀ it ∈ iters, CubeBreak.IsIteration it) ∧
      ((tail = [.windowShouldClose true] ∧
          ∃ w', (CubeBreak.renderLoop env frames w).res = .ok w' ∧
            w'.mainWindow.shouldClose = true) ∨
        (tail = [.windowShouldClose false] ∧
          (CubeBreak.renderLoop env frames w).res = .error .outOfFrames) ∨
        (tail = [] ∧ (CubeBreak.renderLoop env frames w).res = .error (.exit 1)))) ∧
    NeverAfter isClosedRead isLoopCall (CubeBreak.main env frames).trace ∧
    ((∃ c ∈ (CubeBreak.main env frames).trace, isClosedRead c = true) →
      ∃ w', (CubeBreak.main env frames).res = .ok w' ∧ w'.mainWindow.shouldClose = true) := by
  refine ⟨⟨_, CubeBreak.setShouldClose_eq w, rfl, rfl⟩,
    (CubeBreak.cubeLoop_iterations env frames w).2,
    CubeBreak.closed_read_ends_main env frames⟩

/-- C6 witness: when escape is pressed in the first frame, the second read of
the flag returns `true` and `main` returns normally. -/
theorem C6_close_flag_witness :
    (∃ c ∈ (CubeBreak.main CubeBreak.quietEnv [⟨[], [.key .escape]⟩]).trace,
      isClosedRead c = true) ∧
    ∃ w', (CubeBreak.main CubeBreak.quietEnv [⟨[], [.key .escape]⟩]).res = .ok w' ∧
      w'.mainWindow.shouldClose = true := by
  have hmem : ∃ c ∈ (CubeBreak.main CubeBreak.quietEnv [⟨[], [.key .escape]⟩]).trace,
      isClosedRead c = true := List.any_eq_true.mp (by decide)
  exact ⟨hmem, (C6_close_flag CubeBreak.quietEnv [⟨[], [.key .escape]⟩] {}).2.2.2 hmem⟩

/-- C7: in every iteration of blendBlink's render loop the calls are, in this
order, `StartShadowMapping`, `GetActiveLightCount`, the per-light shadow calls
of the first `k` entries of `ActiveLights`, then `EndShadowMapping`, `Viewport`,
`ClearColor`, `Clear`, `GetViewMatrix`, `DrawRenderable` of smoke, testCube and
floorPlane, `SwapBuffers`, `PollEvents` (the list `afterShadowCalls`); the
iteration runs to its end exactly when the counted lights are all present, and
otherwise stops by a run-time panic inside the per-light part.  In either case
no shadow draw follows a main-pass draw and no main-pass draw follows the
present. -/
theorem C7_frame_call_order (gc : List (Option Light) → Int) (sc : BlendBlink.Scene) :
    (∃ k : Nat, k ≤ (gc sc.activeLights).toNat ∧
      (∀ c ∈ (sc.activeLights.take k).flatMap (BlendBlink.shadowCallsFor sc),
        isShadowCall c = true) ∧
      (((BlendBlink.renderFrame gc sc).trace =
          [.startShadowMapping, .getActiveLightCount (gc sc.activeLights)] ++
            (sc.activeLights.take k).flatMap (BlendBlink.shadowCallsFor sc) ++
            BlendBlink.afterShadowCalls sc ∧
        (BlendBlink.renderFrame gc sc).res = .ok () ∧ k = (gc sc.activeLights).toNat ∧
        BlendBlink.Packed sc.activeLights (gc sc.activeLights)) ∨
       ((BlendBlink.renderFrame gc sc).trace =
          [.startShadowMapping, .getActiveLightCount (gc sc.activeLights)] ++
            (sc.activeLights.take k).flatMap (BlendBlink.shadowCallsFor sc) ∧
        (∃ msg, (BlendBlink.renderFrame gc sc).res = .error (.panic msg)) ∧
        ¬ BlendBlink.Packed sc.activeLights (gc sc.activeLights)))) ∧
    NeverAfter isMainDraw isShadowDraw (BlendBlink.renderFrame gc sc).trace ∧
    NeverAfter isPresent isMainDraw (BlendBlink.renderFrame gc sc).trace := by
  obtain ⟨_, k, hk, h⟩ := BlendBlink.renderFrame_cases gc sc
  exact ⟨⟨k, hk, BlendBlink.isShadowCall_of_mem_flatMap sc _, h⟩,
    BlendBlink.renderFrame_order gc sc⟩

/-- C7 witness: with two packed lights the iteration runs to its end. -/
theorem C7_frame_call_order_witness :
    (BlendBlink.renderFrame BlendBlink.leadingLights BlendBlink.packedScene).res = .ok () ∧
    (BlendBlink.renderFrame BlendBlink.leadingLights BlendBlink.packedScene).trace =
      [.startShadowMapping, .getActiveLightCount 2] ++
        BlendBlink.shadowCallsFor BlendBlink.packedScene (some (BlendBlink.shadowLight 0)) ++
        BlendBlink.afterShadowCalls BlendBlink.packedScene := by
  obtain ⟨k, _, _, h⟩ :=
    (C7_frame_call_order BlendBlink.leadingLights BlendBlink.packedScene).1
  rcases h with ⟨_, hres, _, _⟩ | ⟨_, _, hnot⟩
  · exact ⟨hres, rfl⟩
  · exact absurd packedScene_packed hnot

/-- C8: the swap interval `initGraphics` sets once the window exists is 1 in
blendBlink (v-sync on, against the comment above the call) and 0 in cubeBreak. -/
theorem C8_swap_interval (benv : BlendBlink.Env) (cenv : CubeBreak.Env) (title : String)
    (w h : Int) :
    (BlendBlink.initGraphics benv title w h).trace.filterMap swapIntervalOf =
      (if benv.glfwInitErr = none ∧ benv.createWindowErr = none then [1] else []) ∧
    (CubeBreak.initGraphics cenv title w h).trace.filterMap swapIntervalOf =
      (if cenv.glfwInitErr = none ∧ cenv.createWindowErr = none then [0] else []) := by
  constructor
  · unfold BlendBlink.initGraphics
    simp only [BlendBlink.selectMonitor_eq]
    cases h1 : benv.glfwInitErr <;> cases h2 : benv.createWindowErr <;>
      cases h3 : benv.initOpenGLErr <;>
      simp [bind_eq, pure_eq, andThen, ret, emit, func, goPanic, swapIntervalOf]
  · unfold CubeBreak.initGraphics
    cases h1 : cenv.glfwInitErr <;> cases h2 : cenv.createWindowErr <;>
      cases h3 : cenv.initOpenGLErr <;>
      simp [bind_eq, pure_eq, andThen, ret, emit, func, goPanic, swapIntervalOf]

/-- C9: in the run of cubeBreak where nothing is pressed in the first frame and
escape in the second, which returns normally, neither iteration draws anything;
and two presses of the space key leave the object set empty again. -/
theorem C9_nothing_drawn :
    (∃ w, (CubeBreak.main CubeBreak.quietEnv [⟨[], []⟩, ⟨[], [.key .escape]⟩]).res = .ok w) ∧
    (CubeBreak.main CubeBreak.quietEnv [⟨[], []⟩, ⟨[], [.key .escape]⟩]).trace.filter
      isMainDraw = [] ∧
    ∃ w', (CubeBreak.fireKeys CubeBreak.quietEnv [.space, .space] {}).res = .ok w' ∧
      w'.objects = [] :=
  ⟨⟨_, rfl⟩, rfl, ⟨_, rfl, rfl⟩⟩

/-- C10: in the run of cubeBreak where the space key is pressed in the first
frame and escape in the second, the cube drawn in the second iteration refers to
a shader that was destroyed when `toggleModel` returned. -/
theorem C10_draw_with_destroyed_shader :
    (∃ w, (CubeBreak.main CubeBreak.quietEnv
        [⟨[], [.key .space]⟩, ⟨[], [.key .escape]⟩]).res = .ok w) ∧
    drawsLive []
      (CubeBreak.main CubeBreak.quietEnv
        [⟨[], [.key .space]⟩, ⟨[], [.key .escape]⟩]).trace = false :=
  ⟨⟨_, rfl⟩, by decide⟩
